import Mathlib

/-!
# Subscriber data management consumer (`internal/sbi/consumer/subscriber_data_management.go`)

A shallow embedding of the seven UDM subscriber-data-management consumer operations of the
AMF.  Every operation issues one remote request, classifies the result and updates the
subscriber record `AmfUe`.  The remote service is a parameter (`Client`); a run of an operation
is described by an `Exec`: the record after the call, what the Go function returned (or the
run-time fault that ended it), the requests issued and how often the operation itself closed
the response body.
-/

set_option linter.dupNamespace false

namespace Consumer

/-! ## Data model: the types the source takes from `models`, `openapi`, `net/http` -/

/-- Modelled from the spec: `models.PlmnId`, the subscriber's home network identifier that is
used as the filter of most requests. -/
structure PlmnId where
  Mcc : String
  Mnc : String
deriving DecidableEq, Repr

/-- Modelled from the spec: `models.ProblemDetails`, the structured problem-detail document of
a failed service call. -/
structure ProblemDetails where
  Title : String
  Status : Int
  Detail : String
  Instance : String
  Cause : String
deriving DecidableEq, Repr

/-- The dynamic value held by the `interface{}` field `ErrorModel` of a
`GenericOpenAPIError`: nothing at all, a `models.ProblemDetails` value, or a value of some other
dynamic type (named by `dynType`). -/
inductive ErrorModel where
  | nil
  | problemDetails (p : ProblemDetails)
  | other (dynType : String)
deriving DecidableEq, Repr

/-- The struct `openapi.GenericOpenAPIError`: raw body, unpacked model, and the text that its
`Error()` method returns. -/
structure GenericOpenAPIError where
  RawBody : String
  ErrorModel : ErrorModel
  ErrorStatus : String
deriving DecidableEq, Repr

/-- Method `GenericOpenAPIError.Model()`. -/
def GenericOpenAPIError.Model (e : GenericOpenAPIError) : Consumer.ErrorModel := e.ErrorModel

/-- A non-nil Go `error` value, by dynamic type: an `openapi.GenericOpenAPIError`, the value
built by `fmt.Errorf`, or a value of any other dynamic type (for instance `*url.Error`) with
the text its `Error()` method returns. -/
inductive GoError where
  | generic (e : GenericOpenAPIError)
  | errorf (msg : String)
  | other (dynType : String) (msg : String)
deriving DecidableEq, Repr

/-- Method `GenericOpenAPIError.Error()`. -/
def GenericOpenAPIError.Error (e : GenericOpenAPIError) : String := e.ErrorStatus

/-- Method `Error()` of an error value. -/
def GoError.Error : GoError → String
  | .generic e => e.Error
  | .errorf msg => msg
  | .other _ msg => msg

/-- The helper `openapi.ReportError(format)`, which is `fmt.Errorf(format)`; the source calls
it with a constant format only. -/
def ReportError (format : String) : GoError := .errorf format

/-- The part of `*http.Response` the source reads: the status line and the status code. -/
structure HttpResponse where
  Status : String
  StatusCode : Int
deriving DecidableEq, Repr

/-- Modelled from the spec: `models.AccessAndMobilitySubscriptionData`; `Gpsis` is the returned
public-identity list, the other fields are carried along unread by the source. -/
structure AccessAndMobilitySubscriptionData where
  SupportedFeatures : String
  Gpsis : List String
  InternalGroupIds : List String
  RfspIndex : Int
  MicoAllowed : Bool
deriving DecidableEq, Repr

/-- The struct `models.DnnInfo`. -/
structure DnnInfo where
  Dnn : String
  DefaultDnnIndicator : Bool
  LboRoamingAllowed : Bool
  IwkEpsInd : Bool
deriving DecidableEq, Repr

/-- The struct `models.SnssaiInfo`. -/
structure SnssaiInfo where
  DnnInfos : List DnnInfo
deriving DecidableEq, Repr

/-- A Go `map[string]V`: `none` is the nil map, `some es` a map with the entries `es`, listed
in the order in which a `range` loop visits them (any order is possible). -/
abbrev GoMap (V : Type) := Option (List (String × V))

/-- Go `len(m)`. -/
def GoMap.len {V : Type} : GoMap V → Nat
  | none => 0
  | some es => es.length

/-- The entries a `range` loop over the map visits, in order. -/
def GoMap.entries {V : Type} : GoMap V → List (String × V)
  | none => []
  | some es => es

/-- The keys of the map. -/
def GoMap.keys {V : Type} (m : GoMap V) : List String := (GoMap.entries m).map Prod.fst

/-- Go `v, exist := m[k]` on the entries of a map. -/
def mapGet {V : Type} : List (String × V) → String → Option V
  | [], _ => none
  | (k, v) :: es, key => if k = key then some v else mapGet es key

/-- Go `m[k] = v` on the entries of a map: an existing key has its value replaced, a new key
is added. -/
def mapSet {V : Type} : List (String × V) → String → V → List (String × V)
  | [], key, val => [(key, val)]
  | (k, v) :: es, key, val => if k = key then (k, val) :: es else (k, v) :: mapSet es key val

/-- Modelled from the spec: `models.SmfSelectionSubscriptionData`, with the selection-info
mapping `SubscribedSnssaiInfos`. -/
structure SmfSelectionSubscriptionData where
  SupportedFeatures : String
  SubscribedSnssaiInfos : GoMap SnssaiInfo
  SharedSnssaiInfosId : String
deriving DecidableEq, Repr

/-- The struct `models.PduSession`. -/
structure PduSession where
  Dnn : String
  SmfInstanceId : String
deriving DecidableEq, Repr

/-- Modelled from the spec: `models.UeContextInSmfData`, stored wholesale by the source. -/
structure UeContextInSmfData where
  PduSessions : GoMap PduSession
  PgwInfo : List String
deriving DecidableEq, Repr

/-- The struct `models.SdmSubscription`. -/
structure SdmSubscription where
  NfInstanceId : String
  SubscriptionId : String
  PlmnId : Option PlmnId
deriving DecidableEq, Repr

/-- The struct `models.Snssai`. -/
structure Snssai where
  Sst : Int
  Sd : String
deriving DecidableEq, Repr

/-- The struct `models.Nssai`: the default and the non-default slice entries. -/
structure Nssai where
  SupportedFeatures : String
  DefaultSingleNssais : List Snssai
  SingleNssais : List Snssai
deriving DecidableEq, Repr

/-- The struct `models.SubscribedSnssai`. -/
structure SubscribedSnssai where
  SubscribedSnssai : Option Snssai
  DefaultIndication : Bool
deriving DecidableEq, Repr

/-- The struct `models.AcknowledgeInfo`. -/
structure AcknowledgeInfo where
  UpuMacIue : String
deriving DecidableEq, Repr

/-- Modelled from the spec: the subscriber record `amf_context.AmfUe`, restricted to the fields
the source reads or writes. -/
structure AmfUe where
  NudmSDMUri : String
  Supi : String
  PlmnId : PlmnId
  Gpsi : String
  AccessAndMobilitySubscriptionData : Option AccessAndMobilitySubscriptionData
  SmfSelectionData : Option SmfSelectionSubscriptionData
  UeContextInSmfData : Option UeContextInSmfData
  SdmSubscriptionId : String
  SubscribedNssai : List SubscribedSnssai
deriving DecidableEq, Repr

/-! ## The remote service -/

/-- A request issued to the remote service: the base path the client was configured with and
the arguments of the API call (the PLMN filter is sent as `MarshToJsonString(ue.PlmnId)`). -/
inductive Request where
  | PutUpuAck (basePath supi : String) (ackInfo : AcknowledgeInfo)
  | GetAmData (basePath supi : String) (plmnId : PlmnId)
  | GetSmfSelectData (basePath supi : String) (plmnId : PlmnId)
  | GetUeContextInSmfData (basePath supi : String)
  | Subscribe (basePath supi : String) (sdmSubscription : SdmSubscription)
  | GetNssai (basePath supi : String) (plmnId : PlmnId)
  | Unsubscribe (basePath supi subscriptionId : String)
deriving DecidableEq, Repr

/-- What an API call of the generated client returns: the payload, the response (nil when no
response was received) and the error (nil on success). -/
structure Remote (α : Type) where
  data : α
  httpResp : Option HttpResponse
  localErr : Option GoError
deriving DecidableEq, Repr

/-- The generated `Nudm_SubscriberDataManagement` client: one function per API the source
calls, from the base path and the call's arguments to the call's results. -/
structure Client where
  PutUpuAck : String → String → AcknowledgeInfo → Remote Unit
  GetAmData : String → String → PlmnId → Remote AccessAndMobilitySubscriptionData
  GetSmfSelectData : String → String → PlmnId → Remote SmfSelectionSubscriptionData
  GetUeContextInSmfData : String → String → Remote UeContextInSmfData
  Subscribe : String → String → SdmSubscription → Remote SdmSubscription
  GetNssai : String → String → PlmnId → Remote Nssai
  Unsubscribe : String → String → String → Remote Unit

/-! ## Runs of an operation -/

/-- A run-time fault that ends a Go function without a return value. -/
inductive Panic where
  | indexOutOfRange (index length : Nat)
  | typeAssertion
deriving DecidableEq, Repr

/-- How a Go function ended: it returned `r`, or it panicked. -/
inductive Go (ρ : Type) where
  | returned (r : ρ)
  | panicked (p : Panic)
deriving DecidableEq, Repr

/-- The named results `(problemDetails *models.ProblemDetails, err error)`. -/
structure Ret where
  problemDetails : Option ProblemDetails
  err : Option GoError
deriving DecidableEq, Repr

/-- A run of an operation: the subscriber record after the run, how the function ended, the
requests it issued, and `closes`, the number of `Body.Close()` calls that the operation itself
makes on the response (the calls written in the consumer file, deferred ones included). What
the generated client does with the body inside the API call is not part of `closes`; the
count over both is `bodyCloses`. -/
structure Exec (ρ : Type) where
  ue : AmfUe
  ret : Go ρ
  requests : List Request
  closes : Nat
deriving DecidableEq, Repr

/-! ## The operations -/

/-- The failure branch that the six operations returning problem details share word for word:
`else if httpResp != nil { defer Body.Close(); if httpResp.Status != localErr.Error() { err =
localErr; return }; problem := localErr.(openapi.GenericOpenAPIError).Model().(models.ProblemDetails);
problemDetails = &problem } else { err = openapi.ReportError("server no response") }`.
The result is how the function ends and the number of `Body.Close()` calls the branch itself
makes (the deferred close also runs when a type assertion panics). -/
def handleFailure (httpResp : Option HttpResponse) (localErr : GoError) : Go Ret × Nat :=
  match httpResp with
  | some resp =>
    if resp.Status ≠ localErr.Error then
      (.returned ⟨none, some localErr⟩, 1)
    else
      match localErr with
      | .generic e =>
        match e.Model with
        | .problemDetails problem => (.returned ⟨some problem, none⟩, 1)
        | _ => (.panicked .typeAssertion, 1)
      | _ => (.panicked .typeAssertion, 1)
  | none => (.returned ⟨none, some (ReportError "server no response")⟩, 0)

/-- Go `PutUpuAck(ue, upuMacIue)`: returns the error of the remote call as it is; the deferred
function closes the body when a response was received. -/
def PutUpuAck (client : Client) (ue : AmfUe) (upuMacIue : String) : Exec (Option GoError) :=
  let ackInfo : AcknowledgeInfo := { UpuMacIue := upuMacIue }
  let r := client.PutUpuAck ue.NudmSDMUri ue.Supi ackInfo
  { ue := ue
    ret := .returned r.localErr
    requests := [.PutUpuAck ue.NudmSDMUri ue.Supi ackInfo]
    closes := if r.httpResp.isSome then 1 else 0 }

/-- Go `SDMGetAmData(ue)`. On success the access-and-mobility field is written first, then
`data.Gpsis[0]` is read, which panics on an empty list. -/
def SDMGetAmData (client : Client) (ue : AmfUe) : Exec Ret :=
  let r := client.GetAmData ue.NudmSDMUri ue.Supi ue.PlmnId
  let requests := [Request.GetAmData ue.NudmSDMUri ue.Supi ue.PlmnId]
  match r.localErr with
  | none =>
    let ue1 := { ue with AccessAndMobilitySubscriptionData := some r.data }
    match r.data.Gpsis with
    | gpsi :: _ =>
      { ue := { ue1 with Gpsi := gpsi }, ret := .returned ⟨none, none⟩,
        requests := requests, closes := 0 }
    | [] =>
      { ue := ue1, ret := .panicked (.indexOutOfRange 0 0), requests := requests, closes := 0 }
  | some localErr =>
    { ue := ue, ret := (handleFailure r.httpResp localErr).1, requests := requests,
      closes := (handleFailure r.httpResp localErr).2 }

/-- The loop `for key, info := range data.SubscribedSnssaiInfos` of `SDMGetSmfSelectData` over
the entries still to visit, with the new map built so far: `.error newKey` is the early
`return nil, fmt.Errorf("duplicate key %s", newKey)`, `.ok` the new map after the loop.
`toLower` is `strings.ToLower`. -/
def lowerKeys (toLower : String → String) :
    List (String × SnssaiInfo) → List (String × SnssaiInfo) →
      Except String (List (String × SnssaiInfo))
  | [], newSubscribedSnssaiInfos => .ok newSubscribedSnssaiInfos
  | (key, info) :: rest, newSubscribedSnssaiInfos =>
    let newKey := toLower key
    if (mapGet newSubscribedSnssaiInfos newKey).isSome then
      .error newKey
    else
      lowerKeys toLower rest (mapSet newSubscribedSnssaiInfos newKey info)

/-- Go `SDMGetSmfSelectData(ue)`; `toLower` is `strings.ToLower`. -/
def SDMGetSmfSelectData (toLower : String → String) (client : Client) (ue : AmfUe) : Exec Ret :=
  let r := client.GetSmfSelectData ue.NudmSDMUri ue.Supi ue.PlmnId
  let requests := [Request.GetSmfSelectData ue.NudmSDMUri ue.Supi ue.PlmnId]
  match r.localErr with
  | none =>
    if GoMap.len r.data.SubscribedSnssaiInfos ≠ 0 then
      match lowerKeys toLower (GoMap.entries r.data.SubscribedSnssaiInfos) [] with
      | .error newKey =>
        { ue := ue, ret := .returned ⟨none, some (.errorf ("duplicate key " ++ newKey))⟩,
          requests := requests, closes := 0 }
      | .ok newSubscribedSnssaiInfos =>
        let data := { r.data with SubscribedSnssaiInfos := some newSubscribedSnssaiInfos }
        { ue := { ue with SmfSelectionData := some data }, ret := .returned ⟨none, none⟩,
          requests := requests, closes := 0 }
    else
      { ue := { ue with SmfSelectionData := some r.data }, ret := .returned ⟨none, none⟩,
        requests := requests, closes := 0 }
  | some localErr =>
    { ue := ue, ret := (handleFailure r.httpResp localErr).1, requests := requests,
      closes := (handleFailure r.httpResp localErr).2 }

/-- Go `SDMGetUeContextInSmfData(ue)`. -/
def SDMGetUeContextInSmfData (client : Client) (ue : AmfUe) : Exec Ret :=
  let r := client.GetUeContextInSmfData ue.NudmSDMUri ue.Supi
  let requests := [Request.GetUeContextInSmfData ue.NudmSDMUri ue.Supi]
  match r.localErr with
  | none =>
    { ue := { ue with UeContextInSmfData := some r.data }, ret := .returned ⟨none, none⟩,
      requests := requests, closes := 0 }
  | some localErr =>
    { ue := ue, ret := (handleFailure r.httpResp localErr).1, requests := requests,
      closes := (handleFailure r.httpResp localErr).2 }

/-- Go `SDMSubscribe(ue)`; `nfId` is `amf_context.AMF_Self().NfId`. -/
def SDMSubscribe (nfId : String) (client : Client) (ue : AmfUe) : Exec Ret :=
  let sdmSubscription : SdmSubscription :=
    { NfInstanceId := nfId, SubscriptionId := "", PlmnId := some ue.PlmnId }
  let r := client.Subscribe ue.NudmSDMUri ue.Supi sdmSubscription
  let requests := [Request.Subscribe ue.NudmSDMUri ue.Supi sdmSubscription]
  match r.localErr with
  | none =>
    { ue := { ue with SdmSubscriptionId := r.data.SubscriptionId }, ret := .returned ⟨none, none⟩,
      requests := requests, closes := 0 }
  | some localErr =>
    { ue := ue, ret := (handleFailure r.httpResp localErr).1, requests := requests,
      closes := (handleFailure r.httpResp localErr).2 }

/-- One round of the first loop of `SDMGetSliceSelectionSubscriptionData`: append the entry
built from a default slice. -/
def appendDefault (subscribedNssai : List SubscribedSnssai) (defaultSnssai : Snssai) :
    List SubscribedSnssai :=
  subscribedNssai ++
    [{ SubscribedSnssai := some { Sst := defaultSnssai.Sst, Sd := defaultSnssai.Sd },
       DefaultIndication := true }]

/-- One round of the second loop of `SDMGetSliceSelectionSubscriptionData`: append the entry
built from a non-default slice. -/
def appendSingle (subscribedNssai : List SubscribedSnssai) (snssai : Snssai) :
    List SubscribedSnssai :=
  subscribedNssai ++
    [{ SubscribedSnssai := some { Sst := snssai.Sst, Sd := snssai.Sd },
       DefaultIndication := false }]

/-- Go `SDMGetSliceSelectionSubscriptionData(ue)`: the two `range` loops are left folds over
`DefaultSingleNssais` and then `SingleNssais`. -/
def SDMGetSliceSelectionSubscriptionData (client : Client) (ue : AmfUe) : Exec Ret :=
  let r := client.GetNssai ue.NudmSDMUri ue.Supi ue.PlmnId
  let requests := [Request.GetNssai ue.NudmSDMUri ue.Supi ue.PlmnId]
  match r.localErr with
  | none =>
    let ue1 := { ue with SubscribedNssai :=
                   r.data.DefaultSingleNssais.foldl appendDefault ue.SubscribedNssai }
    let ue2 := { ue1 with SubscribedNssai :=
                   r.data.SingleNssais.foldl appendSingle ue1.SubscribedNssai }
    { ue := ue2, ret := .returned ⟨none, none⟩, requests := requests, closes := 0 }
  | some localErr =>
    { ue := ue, ret := (handleFailure r.httpResp localErr).1, requests := requests,
      closes := (handleFailure r.httpResp localErr).2 }

/-- Go `SDMUnsubscribe(ue)`. -/
def SDMUnsubscribe (client : Client) (ue : AmfUe) : Exec Ret :=
  let r := client.Unsubscribe ue.NudmSDMUri ue.Supi ue.SdmSubscriptionId
  let requests := [Request.Unsubscribe ue.NudmSDMUri ue.Supi ue.SdmSubscriptionId]
  match r.localErr with
  | none => { ue := ue, ret := .returned ⟨none, none⟩, requests := requests, closes := 0 }
  | some localErr =>
    { ue := ue, ret := (handleFailure r.httpResp localErr).1, requests := requests,
      closes := (handleFailure r.httpResp localErr).2 }

/-- The entry the loop stores for an input entry: the key folded, the value kept. -/
def lowerEntry (toLower : String → String) (e : String × SnssaiInfo) : String × SnssaiInfo :=
  (toLower e.1, e.2)

/-- The run `x` returned `r` and left the record `ue` as it was. -/
def Exec.returnedUnchanged (x : Exec Ret) (ue : AmfUe) (r : Ret) : Prop :=
  x.ret = .returned r ∧ x.ue = ue

/-! ## Sample values -/

/-- ASCII case folding: what `strings.ToLower` does on a string of ASCII characters. -/
def asciiToLower (s : String) : String := String.mk (s.data.map Char.toLower)

/-- A subscriber record with nothing fetched yet. -/
def ue0 : AmfUe :=
  { NudmSDMUri := "http://udm.example/nudm-sdm/v1", Supi := "imsi-208930000000003",
    PlmnId := { Mcc := "208", Mnc := "93" }, Gpsi := "",
    AccessAndMobilitySubscriptionData := none, SmfSelectionData := none,
    UeContextInSmfData := none, SdmSubscriptionId := "", SubscribedNssai := [] }

/-- A client whose every call fails with response `httpResp` and error `localErr`; the
payloads are the zero values. -/
def failingClient (httpResp : Option HttpResponse) (localErr : GoError) : Client :=
  { PutUpuAck := fun _ _ _ => ⟨(), httpResp, some localErr⟩
    GetAmData := fun _ _ _ => ⟨⟨"", [], [], 0, false⟩, httpResp, some localErr⟩
    GetSmfSelectData := fun _ _ _ => ⟨⟨"", none, ""⟩, httpResp, some localErr⟩
    GetUeContextInSmfData := fun _ _ => ⟨⟨none, []⟩, httpResp, some localErr⟩
    Subscribe := fun _ _ _ => ⟨⟨"", "", none⟩, httpResp, some localErr⟩
    GetNssai := fun _ _ _ => ⟨⟨"", [], []⟩, httpResp, some localErr⟩
    Unsubscribe := fun _ _ _ => ⟨(), httpResp, some localErr⟩ }

/-- The response of a successful call. -/
def resp200 : HttpResponse := { Status := "200 OK", StatusCode := 200 }

/-- A client with no route to the server: no response, a dial error. -/
def noRouteClient : Client :=
  failingClient none (.other "*url.Error" "dial tcp: connect: connection refused")

/-- A selection-info value. -/
def info0 : SnssaiInfo :=
  { DnnInfos := [{ Dnn := "internet", DefaultDnnIndicator := true, LboRoamingAllowed := false,
                   IwkEpsInd := false }] }

/-- SMF-selection data with the two keys `01ABCDEF` and `01abcdef`, which fold to one key. -/
def smfDataCollision : SmfSelectionSubscriptionData :=
  { SupportedFeatures := "", SharedSnssaiInfosId := "",
    SubscribedSnssaiInfos := some [("01ABCDEF", info0), ("01abcdef", info0)] }

/-- A client whose SMF-selection call succeeds with `smfDataCollision`. -/
def collisionClient : Client :=
  { noRouteClient with GetSmfSelectData := fun _ _ _ => ⟨smfDataCollision, some resp200, none⟩ }

/-- SMF-selection data with the two keys `01ABCDEF` and `02`. -/
def smfDataUpper : SmfSelectionSubscriptionData :=
  { SupportedFeatures := "", SharedSnssaiInfosId := "",
    SubscribedSnssaiInfos := some [("01ABCDEF", info0), ("02", info0)] }

/-- A client whose SMF-selection call succeeds with `smfDataUpper`. -/
def upperClient : Client :=
  { noRouteClient with GetSmfSelectData := fun _ _ _ => ⟨smfDataUpper, some resp200, none⟩ }

/-- Slice-selection data with two default entries and one non-default entry. -/
def nssai0 : Nssai :=
  { SupportedFeatures := "", DefaultSingleNssais := [⟨1, "010203"⟩, ⟨1, "112233"⟩],
    SingleNssais := [⟨2, "000001"⟩] }

/-- A client whose slice-selection call succeeds with `nssai0`. -/
def nssaiClient : Client :=
  { noRouteClient with GetNssai := fun _ _ _ => ⟨nssai0, some resp200, none⟩ }

/-- Access-and-mobility data with two public identities. -/
def amData0 : AccessAndMobilitySubscriptionData :=
  { SupportedFeatures := "", Gpsis := ["msisdn-0900000000", "msisdn-0911111111"],
    InternalGroupIds := [], RfspIndex := 1, MicoAllowed := false }

/-- A client whose access-and-mobility call succeeds with `amData0`. -/
def amClient : Client :=
  { noRouteClient with GetAmData := fun _ _ _ => ⟨amData0, some resp200, none⟩ }

/-- UE-context-in-SMF data with one PDU session. -/
def ueContext0 : UeContextInSmfData :=
  { PduSessions := some [("1", ⟨"internet", "smf-1"⟩)], PgwInfo := [] }

/-- A client whose UE-context-in-SMF call succeeds with `ueContext0`. -/
def ueContextClient : Client :=
  { noRouteClient with GetUeContextInSmfData := fun _ _ => ⟨ueContext0, some resp200, none⟩ }

/-- A client whose subscribe call succeeds with subscription id `sub-42`. -/
def subscribeClient : Client :=
  { noRouteClient with
    Subscribe := fun _ _ sdmSubscription =>
      ⟨{ sdmSubscription with SubscriptionId := "sub-42" }, some resp200, none⟩ }

/-- The response `404 Not Found`. -/
def resp404 : HttpResponse := { Status := "404 Not Found", StatusCode := 404 }

/-- The problem-detail document with title `Not Found`. -/
def problemNotFound : ProblemDetails :=
  { Title := "Not Found", Status := 404, Detail := "", Instance := "", Cause := "USER_NOT_FOUND" }

/-- The error of the generated client for a `404 Not Found` response whose body decoded to
`problemNotFound`: the error text is the status line, the model the decoded document. -/
def errNotFound : GenericOpenAPIError :=
  { RawBody := "", ErrorModel := .problemDetails problemNotFound, ErrorStatus := "404 Not Found" }

/-- A client whose every call is answered with `404 Not Found` and a decoded problem-detail
body. -/
def notFoundClient : Client := failingClient (some resp404) (.generic errNotFound)

/-- The outcome discipline for a run `x` whose remote call ended with `localErr`: the function
returned; after a successful call both results are nil; after a failed call exactly one of
problem details and error is non-nil. -/
def exactlyOneOutcome (localErr : Option GoError) (x : Exec Ret) : Prop :=
  ∃ r, x.ret = .returned r ∧
    (localErr = none → r.problemDetails = none ∧ r.err = none) ∧
    (localErr ≠ none →
      (r.problemDetails ≠ none ∧ r.err = none) ∨ (r.problemDetails = none ∧ r.err ≠ none))

/-- The two unchecked type assertions of the failure branch succeed whenever the guard lets
the error reach them: a failure with a response whose status line equals the error text
carries a `GenericOpenAPIError` whose model is a `ProblemDetails` value. -/
def assertionsHold (httpResp : Option HttpResponse) (localErr : Option GoError) : Prop :=
  ∀ resp err, httpResp = some resp → localErr = some err → resp.Status = err.Error →
    ∃ e problem, err = GoError.generic e ∧ e.Model = ErrorModel.problemDetails problem

/-- What the guard `httpResp.Status != localErr.Error()` makes of a failure with response
`resp` and error `localErr`, for the run `x`: texts differ, the raw error is returned; texts
equal and the error carries a problem-detail model, the model is returned. -/
def guardOutcome (resp : HttpResponse) (localErr : GoError) (x : Exec Ret) : Prop :=
  (resp.Status ≠ localErr.Error → x.ret = .returned ⟨none, some localErr⟩) ∧
  (resp.Status = localErr.Error →
    ∀ e problem, localErr = GoError.generic e → e.Model = ErrorModel.problemDetails problem →
      x.ret = .returned ⟨some problem, none⟩)

/-- Access-and-mobility data with no public identity. -/
def amDataNoGpsi : AccessAndMobilitySubscriptionData :=
  { SupportedFeatures := "", Gpsis := [], InternalGroupIds := [], RfspIndex := 1,
    MicoAllowed := false }

/-- A client whose access-and-mobility call succeeds with `amDataNoGpsi`. -/
def noGpsiClient : Client :=
  { noRouteClient with GetAmData := fun _ _ _ => ⟨amDataNoGpsi, some resp200, none⟩ }

/-- The response `501 Not Implemented`. -/
def resp501 : HttpResponse := { Status := "501 Not Implemented", StatusCode := 501 }

/-- An error whose text is the status line `501 Not Implemented` and which carries no model. -/
def errStatusOnly : GenericOpenAPIError :=
  { RawBody := "", ErrorModel := .nil, ErrorStatus := "501 Not Implemented" }

/-- A client whose every call is answered `501 Not Implemented` with `errStatusOnly`. -/
def statusOnlyClient : Client := failingClient (some resp501) (.generic errStatusOnly)

/-- An error of a `404 Not Found` response whose body did not decode: the text is the
decoding error, there is no model. -/
def errUndecoded : GenericOpenAPIError :=
  { RawBody := "", ErrorModel := .nil,
    ErrorStatus := "unexpected end of JSON input" }

/-- A client whose every call is answered `404 Not Found` with an undecodable body. -/
def undecodedClient : Client := failingClient (some resp404) (.generic errUndecoded)

/-- The response `204 No Content`. -/
def resp204 : HttpResponse := { Status := "204 No Content", StatusCode := 204 }

/-- A client whose acknowledge and unsubscribe calls succeed with `204 No Content`. -/
def noContentClient : Client :=
  { noRouteClient with
    PutUpuAck := fun _ _ _ => ⟨(), some resp204, none⟩
    Unsubscribe := fun _ _ _ => ⟨(), some resp204, none⟩ }

/-- SMF-selection data with the entries of `smfDataUpper` in the other order. -/
def smfDataUpperSwapped : SmfSelectionSubscriptionData :=
  { SupportedFeatures := "", SharedSnssaiInfosId := "",
    SubscribedSnssaiInfos := some [("02", info0), ("01ABCDEF", info0)] }

/-- A client whose SMF-selection call succeeds with `smfDataUpperSwapped`. -/
def upperSwappedClient : Client :=
  { noRouteClient with
    GetSmfSelectData := fun _ _ _ => ⟨smfDataUpperSwapped, some resp200, none⟩ }

/-- The close count of the response body at the end of the run `x` whose API call handed
back `httpResp`: the `clientCloses` calls of `Body.Close()` that the generated client has
made itself when it hands back a response (the client is outside this file, so the number is
a parameter; the generated `Nudm_SubscriberDataManagement` client reads the body and closes
it once), plus the calls `x.closes` of the operation itself. -/
def bodyCloses {ρ : Type} (clientCloses : Nat) (httpResp : Option HttpResponse) (x : Exec ρ) :
    Nat :=
  (if httpResp.isSome then clientCloses else 0) + x.closes

/-! ## Lemmas on maps and on the key-folding loop -/

theorem mapGet_eq_none_iff {V : Type} (m : List (String × V)) (key : String) :
    mapGet m key = none ↔ key ∉ m.map Prod.fst := by
  induction m with
  | nil => simp [mapGet]
  | cons e es ih =>
    obtain ⟨k, v⟩ := e
    by_cases hk : k = key
    · simp [mapGet, hk]
    · have hk2 : ¬ key = k := fun h => hk h.symm
      simp [mapGet, hk, hk2, ih]

theorem mapGet_isSome_iff {V : Type} (m : List (String × V)) (key : String) :
    (mapGet m key).isSome = true ↔ key ∈ m.map Prod.fst := by
  rw [← not_iff_not, ← mapGet_eq_none_iff]
  cases mapGet m key <;> simp

theorem mapSet_of_not_mem {V : Type} (m : List (String × V)) (key : String) (val : V)
    (h : key ∉ m.map Prod.fst) : mapSet m key val = m ++ [(key, val)] := by
  induction m with
  | nil => simp [mapSet]
  | cons e es ih =>
    obtain ⟨k, v⟩ := e
    simp only [List.map_cons, List.mem_cons, not_or] at h
    have hk : ¬ k = key := fun hh => h.1 hh.symm
    simp [mapSet, hk, ih h.2]

/-- The loop ends normally exactly when no folded key of an entry still to visit is in the map
built so far and the folded keys of the entries are pairwise different; the new map is then
the old one followed by the folded entries in visiting order. -/
theorem lowerKeys_ok_iff (toLower : String → String) (l acc r : List (String × SnssaiInfo)) :
    lowerKeys toLower l acc = .ok r ↔
      (r = acc ++ l.map (lowerEntry toLower) ∧
        (∀ e ∈ l, toLower e.1 ∉ acc.map Prod.fst) ∧
        l.Pairwise (fun e1 e2 => toLower e1.1 ≠ toLower e2.1)) := by
  induction l generalizing acc with
  | nil => simp [lowerKeys, eq_comm]
  | cons e rest ih =>
    obtain ⟨key, info⟩ := e
    by_cases hmem : toLower key ∈ acc.map Prod.fst
    · have hsome := (mapGet_isSome_iff acc (toLower key)).mpr hmem
      simp only [lowerKeys, hsome, if_true]
      constructor
      · intro h
        cases h
      · rintro ⟨-, h, -⟩
        exact absurd hmem (h (key, info) (List.mem_cons_self _ _))
    · have hnone : ¬ (mapGet acc (toLower key)).isSome = true := by
        rw [mapGet_isSome_iff]
        exact hmem
      simp only [lowerKeys, hnone, Bool.false_eq_true, if_false,
        mapSet_of_not_mem acc _ info hmem, ih]
      simp only [List.map_cons, List.append_assoc, List.singleton_append, List.map_append,
        List.mem_append, List.mem_singleton, not_or, List.mem_cons, List.pairwise_cons,
        List.map_nil, List.mem_nil_iff, or_false, lowerEntry]
      constructor
      · rintro ⟨hr, h1, h2⟩
        refine ⟨hr, ?_, ?_, h2⟩
        · rintro e (rfl | he)
          · exact hmem
          · exact (h1 e he).1
        · intro e he
          exact fun hh => (h1 e he).2 hh.symm
      · rintro ⟨hr, h1, h2, h3⟩
        refine ⟨hr, ?_, h3⟩
        intro e he
        exact ⟨h1 e (Or.inr he), fun hh => h2 e he hh.symm⟩

/-- Two entries with different keys that fold to the same key make the loop end with the
duplicate-key error. -/
theorem lowerKeys_error_of_collision (toLower : String → String)
    (l acc : List (String × SnssaiInfo)) (e1 e2 : String × SnssaiInfo)
    (h1 : e1 ∈ l) (h2 : e2 ∈ l) (hne : e1.1 ≠ e2.1) (hlow : toLower e1.1 = toLower e2.1) :
    ∃ newKey, lowerKeys toLower l acc = .error newKey := by
  cases hres : lowerKeys toLower l acc with
  | error newKey => exact ⟨newKey, rfl⟩
  | ok r =>
    exfalso
    obtain ⟨-, -, hpw⟩ := (lowerKeys_ok_iff toLower l acc r).mp hres
    have hsymm : Symmetric (fun a b : String × SnssaiInfo => toLower a.1 ≠ toLower b.1) :=
      fun a b hab => fun hh => hab hh.symm
    have hne2 : e1 ≠ e2 := fun hh => hne (by rw [hh])
    exact (List.Pairwise.forall hsymm hpw h1 h2 hne2) hlow

theorem asciiToLower_idem (s : String) : asciiToLower (asciiToLower s) = asciiToLower s := by
  have hc : ∀ c : Char, c.toLower.toLower = c.toLower := by
    intro c
    unfold Char.toLower
    by_cases h : c.toNat ≥ 65 ∧ c.toNat ≤ 90
    · simp only [h, and_self, if_true]
      obtain ⟨h1, h2⟩ := h
      generalize c.toNat = n at h1 h2
      interval_cases n <;> rfl
    · simp [h]
  have hcomp : Char.toLower ∘ Char.toLower = Char.toLower := funext hc
  simp [asciiToLower, hcomp]

/-! ## SMF-selection data: key collisions and stored keys -/

/-- C1: when a successful SMF-selection response holds two distinct keys with the same
lower-case form, `SDMGetSmfSelectData` returns nil problem details and a non-nil error and
leaves the subscriber record exactly as it was. -/
theorem SDMGetSmfSelectData_collision (toLower : String → String) (client : Client)
    (ue : AmfUe) (data : SmfSelectionSubscriptionData) (httpResp : Option HttpResponse)
    (k1 k2 : String) (i1 i2 : SnssaiInfo)
    (hcall : client.GetSmfSelectData ue.NudmSDMUri ue.Supi ue.PlmnId = ⟨data, httpResp, none⟩)
    (h1 : (k1, i1) ∈ GoMap.entries data.SubscribedSnssaiInfos)
    (h2 : (k2, i2) ∈ GoMap.entries data.SubscribedSnssaiInfos)
    (hne : k1 ≠ k2) (hlow : toLower k1 = toLower k2) :
    (∃ e, (SDMGetSmfSelectData toLower client ue).ret = .returned ⟨none, some e⟩) ∧
      (SDMGetSmfSelectData toLower client ue).ue = ue := by
  obtain ⟨newKey, hk⟩ := lowerKeys_error_of_collision toLower
    (GoMap.entries data.SubscribedSnssaiInfos) [] (k1, i1) (k2, i2) h1 h2 hne hlow
  have hlen : GoMap.len data.SubscribedSnssaiInfos ≠ 0 := by
    cases hm : data.SubscribedSnssaiInfos with
    | none => rw [hm] at h1; simp [GoMap.entries] at h1
    | some es =>
      rw [hm] at h1
      cases es with
      | nil => simp [GoMap.entries] at h1
      | cons a as => simp [GoMap.len]
  simp [SDMGetSmfSelectData, hcall, hlen, hk]

/-- Witness of C1: the keys `01ABCDEF` and `01abcdef` collide under ASCII case folding. -/
theorem SDMGetSmfSelectData_collision_witness :
    (∃ e, (SDMGetSmfSelectData asciiToLower collisionClient ue0).ret = .returned ⟨none, some e⟩) ∧
      (SDMGetSmfSelectData asciiToLower collisionClient ue0).ue = ue0 :=
  SDMGetSmfSelectData_collision asciiToLower collisionClient ue0 smfDataCollision (some resp200)
    "01ABCDEF" "01abcdef" info0 info0 rfl (by simp [GoMap.entries, smfDataCollision])
    (by simp [GoMap.entries, smfDataCollision]) (by decide) (by decide)

/-- C2: when `SDMGetSmfSelectData` accepts a successful SMF-selection response (nil error),
every key of the `SubscribedSnssaiInfos` map stored in the record is lower case, that is
equal to its own `strings.ToLower`; `hidem` is the fact that folding a folded string changes
nothing. -/
theorem SDMGetSmfSelectData_keys_lower (toLower : String → String)
    (hidem : ∀ s, toLower (toLower s) = toLower s) (client : Client) (ue : AmfUe)
    (data : SmfSelectionSubscriptionData) (httpResp : Option HttpResponse)
    (problemDetails : Option ProblemDetails)
    (hcall : client.GetSmfSelectData ue.NudmSDMUri ue.Supi ue.PlmnId = ⟨data, httpResp, none⟩)
    (hacc : (SDMGetSmfSelectData toLower client ue).ret = .returned ⟨problemDetails, none⟩) :
    ∃ stored, (SDMGetSmfSelectData toLower client ue).ue.SmfSelectionData = some stored ∧
      ∀ k ∈ GoMap.keys stored.SubscribedSnssaiInfos, toLower k = k := by
  by_cases hlen : GoMap.len data.SubscribedSnssaiInfos = 0
  · refine ⟨data, by simp [SDMGetSmfSelectData, hcall, hlen], ?_⟩
    intro k hk
    cases hm : data.SubscribedSnssaiInfos with
    | none => simp [GoMap.keys, GoMap.entries, hm] at hk
    | some es =>
      have hes : es = [] := by
        simpa [GoMap.len, hm] using hlen
      simp [GoMap.keys, GoMap.entries, hm, hes] at hk
  · cases hres : lowerKeys toLower (GoMap.entries data.SubscribedSnssaiInfos) [] with
    | error newKey => simp [SDMGetSmfSelectData, hcall, hlen, hres] at hacc
    | ok new =>
      refine ⟨{ data with SubscribedSnssaiInfos := some new },
        by simp [SDMGetSmfSelectData, hcall, hlen, hres], ?_⟩
      obtain ⟨hnew, -, -⟩ := (lowerKeys_ok_iff toLower _ [] new).mp hres
      intro k hk
      simp only [GoMap.keys, GoMap.entries, hnew, List.nil_append, List.map_map,
        List.mem_map, Function.comp] at hk
      obtain ⟨e, -, rfl⟩ := hk
      exact hidem e.1

/-- Witness of C2: the keys `01ABCDEF` and `02` are accepted and stored folded. -/
theorem SDMGetSmfSelectData_keys_lower_witness :
    ∃ stored, (SDMGetSmfSelectData asciiToLower upperClient ue0).ue.SmfSelectionData =
        some stored ∧
      ∀ k ∈ GoMap.keys stored.SubscribedSnssaiInfos, asciiToLower k = k :=
  SDMGetSmfSelectData_keys_lower asciiToLower asciiToLower_idem upperClient ue0 smfDataUpper
    (some resp200) none rfl (by decide)

/-! ## Slice selection, access and mobility, UE context in SMF -/

theorem foldl_appendDefault (l : List Snssai) (acc : List SubscribedSnssai) :
    l.foldl appendDefault acc =
      acc ++ l.map (fun s => { SubscribedSnssai := some { Sst := s.Sst, Sd := s.Sd },
                               DefaultIndication := true }) := by
  induction l generalizing acc with
  | nil => simp
  | cons s rest ih => simp [List.foldl_cons, ih, appendDefault]

theorem foldl_appendSingle (l : List Snssai) (acc : List SubscribedSnssai) :
    l.foldl appendSingle acc =
      acc ++ l.map (fun s => { SubscribedSnssai := some { Sst := s.Sst, Sd := s.Sd },
                               DefaultIndication := false }) := by
  induction l generalizing acc with
  | nil => simp
  | cons s rest ih => simp [List.foldl_cons, ih, appendSingle]

/-- C3: after a successful slice-selection fetch the record's `SubscribedNssai` is the prior
sequence, then one entry per default slice in input order flagged default, then one entry per
non-default slice in input order flagged non-default, each with the `Sst` and `Sd` of its
source; the sequence grows by exactly `d + n`. -/
theorem SDMGetSliceSelectionSubscriptionData_appends (client : Client) (ue : AmfUe)
    (nssai : Nssai) (httpResp : Option HttpResponse)
    (hcall : client.GetNssai ue.NudmSDMUri ue.Supi ue.PlmnId = ⟨nssai, httpResp, none⟩) :
    (SDMGetSliceSelectionSubscriptionData client ue).ue.SubscribedNssai =
        ue.SubscribedNssai ++
          nssai.DefaultSingleNssais.map
            (fun s => { SubscribedSnssai := some { Sst := s.Sst, Sd := s.Sd },
                        DefaultIndication := true }) ++
          nssai.SingleNssais.map
            (fun s => { SubscribedSnssai := some { Sst := s.Sst, Sd := s.Sd },
                        DefaultIndication := false }) ∧
      (SDMGetSliceSelectionSubscriptionData client ue).ue.SubscribedNssai.length =
        ue.SubscribedNssai.length + (nssai.DefaultSingleNssais.length + nssai.SingleNssais.length)
      := by
  have heq : (SDMGetSliceSelectionSubscriptionData client ue).ue.SubscribedNssai =
      ue.SubscribedNssai ++
          nssai.DefaultSingleNssais.map
            (fun s => { SubscribedSnssai := some { Sst := s.Sst, Sd := s.Sd },
                        DefaultIndication := true }) ++
          nssai.SingleNssais.map
            (fun s => { SubscribedSnssai := some { Sst := s.Sst, Sd := s.Sd },
                        DefaultIndication := false }) := by
    simp [SDMGetSliceSelectionSubscriptionData, hcall, foldl_appendDefault, foldl_appendSingle]
  refine ⟨heq, ?_⟩
  rw [heq]
  simp [Nat.add_assoc]

/-- Witness of C3: two default entries and one non-default entry on the empty record. -/
theorem SDMGetSliceSelectionSubscriptionData_appends_witness :
    (SDMGetSliceSelectionSubscriptionData nssaiClient ue0).ue.SubscribedNssai =
        ue0.SubscribedNssai ++
          nssai0.DefaultSingleNssais.map
            (fun s => { SubscribedSnssai := some { Sst := s.Sst, Sd := s.Sd },
                        DefaultIndication := true }) ++
          nssai0.SingleNssais.map
            (fun s => { SubscribedSnssai := some { Sst := s.Sst, Sd := s.Sd },
                        DefaultIndication := false }) ∧
      (SDMGetSliceSelectionSubscriptionData nssaiClient ue0).ue.SubscribedNssai.length =
        ue0.SubscribedNssai.length +
          (nssai0.DefaultSingleNssais.length + nssai0.SingleNssais.length) :=
  SDMGetSliceSelectionSubscriptionData_appends nssaiClient ue0 nssai0 (some resp200) rfl

/-- C4: after a successful access-and-mobility fetch with a non-empty `Gpsis` list the
record's `Gpsi` is the first element of the list, the record's
`AccessAndMobilitySubscriptionData` holds the returned data, and the operation returns nil
problem details and nil error. -/
theorem SDMGetAmData_first_gpsi (client : Client) (ue : AmfUe)
    (data : AccessAndMobilitySubscriptionData) (httpResp : Option HttpResponse)
    (hcall : client.GetAmData ue.NudmSDMUri ue.Supi ue.PlmnId = ⟨data, httpResp, none⟩)
    (hne : data.Gpsis ≠ []) :
    (SDMGetAmData client ue).ue.Gpsi = data.Gpsis.head hne ∧
      (SDMGetAmData client ue).ue.AccessAndMobilitySubscriptionData = some data ∧
      (SDMGetAmData client ue).ret = .returned ⟨none, none⟩ := by
  obtain ⟨supportedFeatures, gpsis, internalGroupIds, rfspIndex, micoAllowed⟩ := data
  cases gpsis with
  | nil => exact absurd rfl hne
  | cons gpsi rest => simp [SDMGetAmData, hcall]

/-- Witness of C4: a response with two public identities. -/
theorem SDMGetAmData_first_gpsi_witness :
    (SDMGetAmData amClient ue0).ue.Gpsi = "msisdn-0900000000" ∧
      (SDMGetAmData amClient ue0).ue.AccessAndMobilitySubscriptionData = some amData0 ∧
      (SDMGetAmData amClient ue0).ret = .returned ⟨none, none⟩ :=
  SDMGetAmData_first_gpsi amClient ue0 amData0 (some resp200) rfl (by decide)

/-- C5: `SDMGetUeContextInSmfData` is idempotent on the record: with a successful response,
running the operation again on the resulting record (same remote, same response) gives the
record that one run gives, which is the old record with `UeContextInSmfData` replaced by the
returned data. -/
theorem SDMGetUeContextInSmfData_idempotent (client : Client) (ue : AmfUe)
    (data : UeContextInSmfData) (httpResp : Option HttpResponse)
    (hcall : client.GetUeContextInSmfData ue.NudmSDMUri ue.Supi = ⟨data, httpResp, none⟩) :
    (SDMGetUeContextInSmfData client (SDMGetUeContextInSmfData client ue).ue).ue =
        (SDMGetUeContextInSmfData client ue).ue ∧
      (SDMGetUeContextInSmfData client ue).ue = { ue with UeContextInSmfData := some data } := by
  simp [SDMGetUeContextInSmfData, hcall]

/-- Witness of C5: a response with one PDU session. -/
theorem SDMGetUeContextInSmfData_idempotent_witness :
    (SDMGetUeContextInSmfData ueContextClient
        (SDMGetUeContextInSmfData ueContextClient ue0).ue).ue =
        (SDMGetUeContextInSmfData ueContextClient ue0).ue ∧
      (SDMGetUeContextInSmfData ueContextClient ue0).ue =
        { ue0 with UeContextInSmfData := some ueContext0 } :=
  SDMGetUeContextInSmfData_idempotent ueContextClient ue0 ueContext0 (some resp200) rfl

/-! ## Subscribe and unsubscribe -/

theorem SDMUnsubscribe_ue (client : Client) (ue : AmfUe) : (SDMUnsubscribe client ue).ue = ue := by
  cases h : (client.Unsubscribe ue.NudmSDMUri ue.Supi ue.SdmSubscriptionId).localErr <;>
    simp [SDMUnsubscribe, h]

theorem SDMUnsubscribe_requests (client : Client) (ue : AmfUe) :
    (SDMUnsubscribe client ue).requests =
      [Request.Unsubscribe ue.NudmSDMUri ue.Supi ue.SdmSubscriptionId] := by
  cases h : (client.Unsubscribe ue.NudmSDMUri ue.Supi ue.SdmSubscriptionId).localErr <;>
    simp [SDMUnsubscribe, h]

/-- C6: when the remote call of `SDMSubscribe` succeeds returning subscription id `s`, the
record's `SdmSubscriptionId` becomes `s`; a following `SDMUnsubscribe` on that record, with
any remote, issues exactly the delete request for the record's subscriber identity and `s`,
depends on the remote only through its answer to that request, and leaves the stored
identifier equal to `s` whatever the outcome. -/
theorem SDMSubscribe_then_SDMUnsubscribe (nfId : String) (client : Client) (ue : AmfUe)
    (res : SdmSubscription) (httpResp : Option HttpResponse) (s : String)
    (hcall : client.Subscribe ue.NudmSDMUri ue.Supi
        { NfInstanceId := nfId, SubscriptionId := "", PlmnId := some ue.PlmnId } =
      ⟨res, httpResp, none⟩)
    (hs : res.SubscriptionId = s) :
    (SDMSubscribe nfId client ue).ue.SdmSubscriptionId = s ∧
      ∀ client2 : Client,
        (SDMUnsubscribe client2 (SDMSubscribe nfId client ue).ue).requests =
            [Request.Unsubscribe ue.NudmSDMUri ue.Supi s] ∧
          (∀ client3 : Client,
            client3.Unsubscribe ue.NudmSDMUri ue.Supi s =
                client2.Unsubscribe ue.NudmSDMUri ue.Supi s →
              SDMUnsubscribe client3 (SDMSubscribe nfId client ue).ue =
                SDMUnsubscribe client2 (SDMSubscribe nfId client ue).ue) ∧
          (SDMUnsubscribe client2 (SDMSubscribe nfId client ue).ue).ue.SdmSubscriptionId = s := by
  have hue : (SDMSubscribe nfId client ue).ue = { ue with SdmSubscriptionId := s } := by
    simp [SDMSubscribe, hcall, hs]
  rw [hue]
  refine ⟨rfl, fun client2 => ⟨SDMUnsubscribe_requests client2 _, ?_, ?_⟩⟩
  · intro client3 h3
    simp [SDMUnsubscribe, h3]
  · rw [SDMUnsubscribe_ue]

/-- Witness of C6: the subscription id `sub-42`, then an unsubscribe answered with
`404 Not Found`. -/
theorem SDMSubscribe_then_SDMUnsubscribe_witness :
    (SDMSubscribe "amf-1" subscribeClient ue0).ue.SdmSubscriptionId = "sub-42" ∧
      (SDMUnsubscribe notFoundClient (SDMSubscribe "amf-1" subscribeClient ue0).ue).requests =
        [Request.Unsubscribe ue0.NudmSDMUri ue0.Supi "sub-42"] ∧
      (SDMUnsubscribe notFoundClient
        (SDMSubscribe "amf-1" subscribeClient ue0).ue).ue.SdmSubscriptionId = "sub-42" :=
  have h := SDMSubscribe_then_SDMUnsubscribe "amf-1" subscribeClient ue0
    { NfInstanceId := "amf-1", SubscriptionId := "sub-42", PlmnId := some ue0.PlmnId }
    (some resp200) "sub-42" rfl rfl
  ⟨h.1, (h.2 notFoundClient).1, (h.2 notFoundClient).2.2⟩

/-! ## The failure branch -/

theorem handleFailure_none (localErr : GoError) :
    handleFailure none localErr =
      (.returned ⟨none, some (ReportError "server no response")⟩, 0) := rfl

theorem handleFailure_differ (resp : HttpResponse) (localErr : GoError)
    (h : resp.Status ≠ localErr.Error) :
    handleFailure (some resp) localErr = (.returned ⟨none, some localErr⟩, 1) := by
  simp [handleFailure, h]

theorem handleFailure_problem (resp : HttpResponse) (e : GenericOpenAPIError)
    (problem : ProblemDetails) (hmodel : e.Model = .problemDetails problem)
    (hstatus : e.Error = resp.Status) :
    handleFailure (some resp) (.generic e) = (.returned ⟨some problem, none⟩, 1) := by
  simp [handleFailure, GoError.Error, hstatus, hmodel]

theorem SDMGetAmData_failure (client : Client) (ue : AmfUe) (localErr : GoError)
    (h : (client.GetAmData ue.NudmSDMUri ue.Supi ue.PlmnId).localErr = some localErr) :
    SDMGetAmData client ue =
      { ue := ue
        ret := (handleFailure
          (client.GetAmData ue.NudmSDMUri ue.Supi ue.PlmnId).httpResp localErr).1
        requests := [Request.GetAmData ue.NudmSDMUri ue.Supi ue.PlmnId]
        closes := (handleFailure
          (client.GetAmData ue.NudmSDMUri ue.Supi ue.PlmnId).httpResp localErr).2 } := by
  simp [SDMGetAmData, h]

theorem SDMGetSmfSelectData_failure (toLower : String → String) (client : Client) (ue : AmfUe)
    (localErr : GoError)
    (h : (client.GetSmfSelectData ue.NudmSDMUri ue.Supi ue.PlmnId).localErr = some localErr) :
    SDMGetSmfSelectData toLower client ue =
      { ue := ue
        ret := (handleFailure
          (client.GetSmfSelectData ue.NudmSDMUri ue.Supi ue.PlmnId).httpResp localErr).1
        requests := [Request.GetSmfSelectData ue.NudmSDMUri ue.Supi ue.PlmnId]
        closes := (handleFailure
          (client.GetSmfSelectData ue.NudmSDMUri ue.Supi ue.PlmnId).httpResp localErr).2 } := by
  simp [SDMGetSmfSelectData, h]

theorem SDMGetUeContextInSmfData_failure (client : Client) (ue : AmfUe) (localErr : GoError)
    (h : (client.GetUeContextInSmfData ue.NudmSDMUri ue.Supi).localErr = some localErr) :
    SDMGetUeContextInSmfData client ue =
      { ue := ue
        ret := (handleFailure
          (client.GetUeContextInSmfData ue.NudmSDMUri ue.Supi).httpResp localErr).1
        requests := [Request.GetUeContextInSmfData ue.NudmSDMUri ue.Supi]
        closes := (handleFailure
          (client.GetUeContextInSmfData ue.NudmSDMUri ue.Supi).httpResp localErr).2 } := by
  simp [SDMGetUeContextInSmfData, h]

theorem SDMSubscribe_failure (nfId : String) (client : Client) (ue : AmfUe) (localErr : GoError)
    (h : (client.Subscribe ue.NudmSDMUri ue.Supi
      { NfInstanceId := nfId, SubscriptionId := "", PlmnId := some ue.PlmnId }).localErr =
        some localErr) :
    SDMSubscribe nfId client ue =
      { ue := ue
        ret := (handleFailure (client.Subscribe ue.NudmSDMUri ue.Supi
          { NfInstanceId := nfId, SubscriptionId := "", PlmnId := some ue.PlmnId }).httpResp
            localErr).1
        requests := [Request.Subscribe ue.NudmSDMUri ue.Supi
          { NfInstanceId := nfId, SubscriptionId := "", PlmnId := some ue.PlmnId }]
        closes := (handleFailure (client.Subscribe ue.NudmSDMUri ue.Supi
          { NfInstanceId := nfId, SubscriptionId := "", PlmnId := some ue.PlmnId }).httpResp
            localErr).2 } := by
  simp [SDMSubscribe, h]

theorem SDMGetSliceSelectionSubscriptionData_failure (client : Client) (ue : AmfUe)
    (localErr : GoError)
    (h : (client.GetNssai ue.NudmSDMUri ue.Supi ue.PlmnId).localErr = some localErr) :
    SDMGetSliceSelectionSubscriptionData client ue =
      { ue := ue
        ret := (handleFailure
          (client.GetNssai ue.NudmSDMUri ue.Supi ue.PlmnId).httpResp localErr).1
        requests := [Request.GetNssai ue.NudmSDMUri ue.Supi ue.PlmnId]
        closes := (handleFailure
          (client.GetNssai ue.NudmSDMUri ue.Supi ue.PlmnId).httpResp localErr).2 } := by
  simp [SDMGetSliceSelectionSubscriptionData, h]

theorem SDMUnsubscribe_failure (client : Client) (ue : AmfUe) (localErr : GoError)
    (h : (client.Unsubscribe ue.NudmSDMUri ue.Supi ue.SdmSubscriptionId).localErr =
      some localErr) :
    SDMUnsubscribe client ue =
      { ue := ue
        ret := (handleFailure
          (client.Unsubscribe ue.NudmSDMUri ue.Supi ue.SdmSubscriptionId).httpResp localErr).1
        requests := [Request.Unsubscribe ue.NudmSDMUri ue.Supi ue.SdmSubscriptionId]
        closes := (handleFailure
          (client.Unsubscribe ue.NudmSDMUri ue.Supi ue.SdmSubscriptionId).httpResp localErr).2 }
      := by
  simp [SDMUnsubscribe, h]

/-- C7: for each of the six operations that return problem details, when the remote call
fails with a received response `resp` and the body decoded to the problem-detail document
`problem` (the client then hands back a `GenericOpenAPIError` whose model is `problem` and
whose text is the status line of `resp`), the operation returns `problem`, a nil error, and
leaves the subscriber record unmodified. -/
theorem failure_with_problem_details (toLower : String → String) (nfId : String)
    (client : Client) (ue : AmfUe) (resp : HttpResponse) (e : GenericOpenAPIError)
    (problem : ProblemDetails)
    (hmodel : e.Model = .problemDetails problem) (hstatus : e.Error = resp.Status) :
    ((client.GetAmData ue.NudmSDMUri ue.Supi ue.PlmnId).httpResp = some resp →
      (client.GetAmData ue.NudmSDMUri ue.Supi ue.PlmnId).localErr = some (.generic e) →
      (SDMGetAmData client ue).returnedUnchanged ue ⟨some problem, none⟩) ∧
    ((client.GetSmfSelectData ue.NudmSDMUri ue.Supi ue.PlmnId).httpResp = some resp →
      (client.GetSmfSelectData ue.NudmSDMUri ue.Supi ue.PlmnId).localErr = some (.generic e) →
      (SDMGetSmfSelectData toLower client ue).returnedUnchanged ue ⟨some problem, none⟩) ∧
    ((client.GetUeContextInSmfData ue.NudmSDMUri ue.Supi).httpResp = some resp →
      (client.GetUeContextInSmfData ue.NudmSDMUri ue.Supi).localErr = some (.generic e) →
      (SDMGetUeContextInSmfData client ue).returnedUnchanged ue ⟨some problem, none⟩) ∧
    ((client.Subscribe ue.NudmSDMUri ue.Supi
        { NfInstanceId := nfId, SubscriptionId := "", PlmnId := some ue.PlmnId }).httpResp =
          some resp →
      (client.Subscribe ue.NudmSDMUri ue.Supi
        { NfInstanceId := nfId, SubscriptionId := "", PlmnId := some ue.PlmnId }).localErr =
          some (.generic e) →
      (SDMSubscribe nfId client ue).returnedUnchanged ue ⟨some problem, none⟩) ∧
    ((client.GetNssai ue.NudmSDMUri ue.Supi ue.PlmnId).httpResp = some resp →
      (client.GetNssai ue.NudmSDMUri ue.Supi ue.PlmnId).localErr = some (.generic e) →
      (SDMGetSliceSelectionSubscriptionData client ue).returnedUnchanged ue
        ⟨some problem, none⟩) ∧
    ((client.Unsubscribe ue.NudmSDMUri ue.Supi ue.SdmSubscriptionId).httpResp = some resp →
      (client.Unsubscribe ue.NudmSDMUri ue.Supi ue.SdmSubscriptionId).localErr =
        some (.generic e) →
      (SDMUnsubscribe client ue).returnedUnchanged ue ⟨some problem, none⟩) := by
  have hf := handleFailure_problem resp e problem hmodel hstatus
  refine ⟨?_, ?_, ?_, ?_, ?_, ?_⟩ <;> intro hresp herr
  · simp [Exec.returnedUnchanged, SDMGetAmData_failure client ue _ herr, hresp, hf]
  · simp [Exec.returnedUnchanged, SDMGetSmfSelectData_failure toLower client ue _ herr, hresp, hf]
  · simp [Exec.returnedUnchanged, SDMGetUeContextInSmfData_failure client ue _ herr, hresp, hf]
  · simp [Exec.returnedUnchanged, SDMSubscribe_failure nfId client ue _ herr, hresp, hf]
  · simp [Exec.returnedUnchanged, SDMGetSliceSelectionSubscriptionData_failure client ue _ herr,
      hresp, hf]
  · simp [Exec.returnedUnchanged, SDMUnsubscribe_failure client ue _ herr, hresp, hf]

/-- Witness of C7: every call answered `404 Not Found` with a decoded body of title
`Not Found`. -/
theorem failure_with_problem_details_witness :
    (SDMGetAmData notFoundClient ue0).returnedUnchanged ue0 ⟨some problemNotFound, none⟩ ∧
    (SDMGetSmfSelectData asciiToLower notFoundClient ue0).returnedUnchanged ue0
      ⟨some problemNotFound, none⟩ ∧
    (SDMGetUeContextInSmfData notFoundClient ue0).returnedUnchanged ue0
      ⟨some problemNotFound, none⟩ ∧
    (SDMSubscribe "amf-1" notFoundClient ue0).returnedUnchanged ue0
      ⟨some problemNotFound, none⟩ ∧
    (SDMGetSliceSelectionSubscriptionData notFoundClient ue0).returnedUnchanged ue0
      ⟨some problemNotFound, none⟩ ∧
    (SDMUnsubscribe notFoundClient ue0).returnedUnchanged ue0 ⟨some problemNotFound, none⟩ :=
  have h := failure_with_problem_details asciiToLower "amf-1" notFoundClient ue0 resp404
    errNotFound problemNotFound rfl rfl
  ⟨h.1 rfl rfl, h.2.1 rfl rfl, h.2.2.1 rfl rfl, h.2.2.2.1 rfl rfl, h.2.2.2.2.1 rfl rfl,
    h.2.2.2.2.2 rfl rfl⟩

/-- C8: for each of the six operations that return problem details, when the remote call
fails and no response object was produced, the operation returns nil problem details and the
error built by `ReportError("server no response")`, whose message is `server no response`,
and leaves the subscriber record unmodified. -/
theorem failure_without_response (toLower : String → String) (nfId : String)
    (client : Client) (ue : AmfUe) :
    ((client.GetAmData ue.NudmSDMUri ue.Supi ue.PlmnId).httpResp = none →
      (client.GetAmData ue.NudmSDMUri ue.Supi ue.PlmnId).localErr ≠ none →
      (SDMGetAmData client ue).returnedUnchanged ue
        ⟨none, some (ReportError "server no response")⟩) ∧
    ((client.GetSmfSelectData ue.NudmSDMUri ue.Supi ue.PlmnId).httpResp = none →
      (client.GetSmfSelectData ue.NudmSDMUri ue.Supi ue.PlmnId).localErr ≠ none →
      (SDMGetSmfSelectData toLower client ue).returnedUnchanged ue
        ⟨none, some (ReportError "server no response")⟩) ∧
    ((client.GetUeContextInSmfData ue.NudmSDMUri ue.Supi).httpResp = none →
      (client.GetUeContextInSmfData ue.NudmSDMUri ue.Supi).localErr ≠ none →
      (SDMGetUeContextInSmfData client ue).returnedUnchanged ue
        ⟨none, some (ReportError "server no response")⟩) ∧
    ((client.Subscribe ue.NudmSDMUri ue.Supi
        { NfInstanceId := nfId, SubscriptionId := "", PlmnId := some ue.PlmnId }).httpResp =
          none →
      (client.Subscribe ue.NudmSDMUri ue.Supi
        { NfInstanceId := nfId, SubscriptionId := "", PlmnId := some ue.PlmnId }).localErr ≠
          none →
      (SDMSubscribe nfId client ue).returnedUnchanged ue
        ⟨none, some (ReportError "server no response")⟩) ∧
    ((client.GetNssai ue.NudmSDMUri ue.Supi ue.PlmnId).httpResp = none →
      (client.GetNssai ue.NudmSDMUri ue.Supi ue.PlmnId).localErr ≠ none →
      (SDMGetSliceSelectionSubscriptionData client ue).returnedUnchanged ue
        ⟨none, some (ReportError "server no response")⟩) ∧
    ((client.Unsubscribe ue.NudmSDMUri ue.Supi ue.SdmSubscriptionId).httpResp = none →
      (client.Unsubscribe ue.NudmSDMUri ue.Supi ue.SdmSubscriptionId).localErr ≠ none →
      (SDMUnsubscribe client ue).returnedUnchanged ue
        ⟨none, some (ReportError "server no response")⟩) ∧
    (ReportError "server no response").Error = "server no response" := by
  refine ⟨?_, ?_, ?_, ?_, ?_, ?_, rfl⟩ <;> intro hresp herr <;>
    obtain ⟨localErr, herr⟩ := Option.ne_none_iff_exists'.mp herr
  · simp [Exec.returnedUnchanged, SDMGetAmData_failure client ue _ herr, hresp,
      handleFailure_none]
  · simp [Exec.returnedUnchanged, SDMGetSmfSelectData_failure toLower client ue _ herr, hresp,
      handleFailure_none]
  · simp [Exec.returnedUnchanged, SDMGetUeContextInSmfData_failure client ue _ herr, hresp,
      handleFailure_none]
  · simp [Exec.returnedUnchanged, SDMSubscribe_failure nfId client ue _ herr, hresp,
      handleFailure_none]
  · simp [Exec.returnedUnchanged, SDMGetSliceSelectionSubscriptionData_failure client ue _ herr,
      hresp, handleFailure_none]
  · simp [Exec.returnedUnchanged, SDMUnsubscribe_failure client ue _ herr, hresp,
      handleFailure_none]

/-- Witness of C8: connection refused, no response object. -/
theorem failure_without_response_witness :
    (SDMGetAmData noRouteClient ue0).returnedUnchanged ue0
      ⟨none, some (ReportError "server no response")⟩ ∧
    (SDMGetSmfSelectData asciiToLower noRouteClient ue0).returnedUnchanged ue0
      ⟨none, some (ReportError "server no response")⟩ ∧
    (SDMGetUeContextInSmfData noRouteClient ue0).returnedUnchanged ue0
      ⟨none, some (ReportError "server no response")⟩ ∧
    (SDMSubscribe "amf-1" noRouteClient ue0).returnedUnchanged ue0
      ⟨none, some (ReportError "server no response")⟩ ∧
    (SDMGetSliceSelectionSubscriptionData noRouteClient ue0).returnedUnchanged ue0
      ⟨none, some (ReportError "server no response")⟩ ∧
    (SDMUnsubscribe noRouteClient ue0).returnedUnchanged ue0
      ⟨none, some (ReportError "server no response")⟩ :=
  have h := failure_without_response asciiToLower "amf-1" noRouteClient ue0
  ⟨h.1 rfl (by decide), h.2.1 rfl (by decide), h.2.2.1 rfl (by decide),
    h.2.2.2.1 rfl (by decide), h.2.2.2.2.1 rfl (by decide), h.2.2.2.2.2.1 rfl (by decide)⟩

/-! ## Outcome discipline -/

theorem handleFailure_exactlyOne (httpResp : Option HttpResponse) (localErr : GoError)
    (h : assertionsHold httpResp (some localErr)) :
    ∃ r, (handleFailure httpResp localErr).1 = .returned r ∧
      ((r.problemDetails ≠ none ∧ r.err = none) ∨ (r.problemDetails = none ∧ r.err ≠ none)) := by
  cases httpResp with
  | none => exact ⟨_, rfl, Or.inr ⟨rfl, by simp⟩⟩
  | some resp =>
    by_cases hs : resp.Status = localErr.Error
    · obtain ⟨e, problem, rfl, hm⟩ := h resp localErr rfl rfl hs
      refine ⟨⟨some problem, none⟩, ?_, Or.inl ⟨by simp, rfl⟩⟩
      rw [handleFailure_problem resp e problem hm (by simpa [GoError.Error] using hs.symm)]
    · refine ⟨⟨none, some localErr⟩, ?_, Or.inr ⟨rfl, by simp⟩⟩
      rw [handleFailure_differ resp localErr hs]

/-- C9 fails as stated: a successful access-and-mobility call with an empty `Gpsis` list
ends in an index-out-of-range panic, a failure whose error text equals the status line but
carries no problem-detail model ends in a type-assertion panic, and a successful
SMF-selection call with colliding keys returns a non-nil error. -/
theorem exactlyOneOutcome_counterexample :
    ((SDMGetAmData noGpsiClient ue0).ret = .panicked (.indexOutOfRange 0 0) ∧
      ¬ exactlyOneOutcome none (SDMGetAmData noGpsiClient ue0)) ∧
    ((SDMSubscribe "amf-1" statusOnlyClient ue0).ret = .panicked .typeAssertion ∧
      ¬ exactlyOneOutcome (some (.generic errStatusOnly))
        (SDMSubscribe "amf-1" statusOnlyClient ue0)) ∧
    ((SDMGetSmfSelectData asciiToLower collisionClient ue0).ret =
        .returned ⟨none, some (.errorf "duplicate key 01abcdef")⟩ ∧
      ¬ exactlyOneOutcome none (SDMGetSmfSelectData asciiToLower collisionClient ue0)) := by
  have h1 : (SDMGetAmData noGpsiClient ue0).ret = .panicked (.indexOutOfRange 0 0) := rfl
  have h2 : (SDMSubscribe "amf-1" statusOnlyClient ue0).ret = .panicked .typeAssertion := by
    decide
  have h3 : (SDMGetSmfSelectData asciiToLower collisionClient ue0).ret =
      .returned ⟨none, some (.errorf "duplicate key 01abcdef")⟩ := by decide
  refine ⟨⟨h1, ?_⟩, ⟨h2, ?_⟩, ⟨h3, ?_⟩⟩
  · rintro ⟨r, hr, -, -⟩
    rw [h1] at hr
    cases hr
  · rintro ⟨r, hr, -, -⟩
    rw [h2] at hr
    cases hr
  · rintro ⟨r, hr, hnil, -⟩
    rw [h3] at hr
    cases hr
    have := (hnil rfl).2
    cases this

theorem assertionsHold_none (httpResp : Option HttpResponse) : assertionsHold httpResp none := by
  intro resp err _ h
  cases h

theorem assertionsHold_problem (httpResp : Option HttpResponse) (e : GenericOpenAPIError)
    (problem : ProblemDetails) (h : e.Model = .problemDetails problem) :
    assertionsHold httpResp (some (.generic e)) := by
  intro resp err _ herr _
  cases herr
  exact ⟨e, problem, rfl, h⟩

theorem exactlyOneOutcome_of_failure (x : Exec Ret) (httpResp : Option HttpResponse)
    (localErr : GoError) (hret : x.ret = (handleFailure httpResp localErr).1)
    (h : assertionsHold httpResp (some localErr)) : exactlyOneOutcome (some localErr) x := by
  obtain ⟨r, hr, hone⟩ := handleFailure_exactlyOne httpResp localErr h
  exact ⟨r, by rw [hret, hr], fun hh => Option.noConfusion hh, fun _ => hone⟩

/-- C9, amended: on every remote result on which the operation does not fault (for
`SDMGetAmData` a successful response has a non-empty `Gpsis` list; a failure with a response
whose status line equals the error text carries a `GenericOpenAPIError` with a
`ProblemDetails` model) each of the six operations returns; a successful call returns
(nil, nil), except that `SDMGetSmfSelectData` returns nil problem details and an error that
is nil exactly when no two visited entries fold to the same key; a failed call returns
exactly one of problem details and error non-nil; `PutUpuAck` returns the error of the
remote call as it is. -/
theorem exactlyOneOutcome_of_no_fault (toLower : String → String) (nfId : String)
    (client : Client) (ue : AmfUe) (upuMacIue : String) :
    (assertionsHold (client.GetAmData ue.NudmSDMUri ue.Supi ue.PlmnId).httpResp
        (client.GetAmData ue.NudmSDMUri ue.Supi ue.PlmnId).localErr →
      ((client.GetAmData ue.NudmSDMUri ue.Supi ue.PlmnId).localErr = none →
        (client.GetAmData ue.NudmSDMUri ue.Supi ue.PlmnId).data.Gpsis ≠ []) →
      exactlyOneOutcome (client.GetAmData ue.NudmSDMUri ue.Supi ue.PlmnId).localErr
        (SDMGetAmData client ue)) ∧
    (assertionsHold (client.GetSmfSelectData ue.NudmSDMUri ue.Supi ue.PlmnId).httpResp
        (client.GetSmfSelectData ue.NudmSDMUri ue.Supi ue.PlmnId).localErr →
      ∃ r, (SDMGetSmfSelectData toLower client ue).ret = .returned r ∧
        ((client.GetSmfSelectData ue.NudmSDMUri ue.Supi ue.PlmnId).localErr = none →
          r.problemDetails = none ∧
          (r.err = none ↔
            (GoMap.entries (client.GetSmfSelectData ue.NudmSDMUri ue.Supi
                ue.PlmnId).data.SubscribedSnssaiInfos).Pairwise
              (fun e1 e2 => toLower e1.1 ≠ toLower e2.1))) ∧
        ((client.GetSmfSelectData ue.NudmSDMUri ue.Supi ue.PlmnId).localErr ≠ none →
          (r.problemDetails ≠ none ∧ r.err = none) ∨
            (r.problemDetails = none ∧ r.err ≠ none))) ∧
    (assertionsHold (client.GetUeContextInSmfData ue.NudmSDMUri ue.Supi).httpResp
        (client.GetUeContextInSmfData ue.NudmSDMUri ue.Supi).localErr →
      exactlyOneOutcome (client.GetUeContextInSmfData ue.NudmSDMUri ue.Supi).localErr
        (SDMGetUeContextInSmfData client ue)) ∧
    (assertionsHold (client.Subscribe ue.NudmSDMUri ue.Supi
          { NfInstanceId := nfId, SubscriptionId := "", PlmnId := some ue.PlmnId }).httpResp
        (client.Subscribe ue.NudmSDMUri ue.Supi
          { NfInstanceId := nfId, SubscriptionId := "", PlmnId := some ue.PlmnId }).localErr →
      exactlyOneOutcome (client.Subscribe ue.NudmSDMUri ue.Supi
          { NfInstanceId := nfId, SubscriptionId := "", PlmnId := some ue.PlmnId }).localErr
        (SDMSubscribe nfId client ue)) ∧
    (assertionsHold (client.GetNssai ue.NudmSDMUri ue.Supi ue.PlmnId).httpResp
        (client.GetNssai ue.NudmSDMUri ue.Supi ue.PlmnId).localErr →
      exactlyOneOutcome (client.GetNssai ue.NudmSDMUri ue.Supi ue.PlmnId).localErr
        (SDMGetSliceSelectionSubscriptionData client ue)) ∧
    (assertionsHold (client.Unsubscribe ue.NudmSDMUri ue.Supi ue.SdmSubscriptionId).httpResp
        (client.Unsubscribe ue.NudmSDMUri ue.Supi ue.SdmSubscriptionId).localErr →
      exactlyOneOutcome (client.Unsubscribe ue.NudmSDMUri ue.Supi ue.SdmSubscriptionId).localErr
        (SDMUnsubscribe client ue)) ∧
    (PutUpuAck client ue upuMacIue).ret =
      .returned (client.PutUpuAck ue.NudmSDMUri ue.Supi { UpuMacIue := upuMacIue }).localErr := by
  refine ⟨?_, ?_, ?_, ?_, ?_, ?_, rfl⟩
  · intro ha hg
    cases herr : (client.GetAmData ue.NudmSDMUri ue.Supi ue.PlmnId).localErr with
    | none =>
      obtain ⟨gpsi, rest, hgpsis⟩ := List.exists_cons_of_ne_nil (hg herr)
      exact ⟨⟨none, none⟩, by simp [SDMGetAmData, herr, hgpsis], fun _ => ⟨rfl, rfl⟩,
        fun hh => absurd rfl hh⟩
    | some localErr =>
      rw [herr] at ha
      exact exactlyOneOutcome_of_failure _ _ localErr
        (by rw [SDMGetAmData_failure client ue localErr herr]) ha
  · intro ha
    cases herr : (client.GetSmfSelectData ue.NudmSDMUri ue.Supi ue.PlmnId).localErr with
    | none =>
      by_cases hlen : GoMap.len (client.GetSmfSelectData ue.NudmSDMUri ue.Supi
          ue.PlmnId).data.SubscribedSnssaiInfos = 0
      · refine ⟨⟨none, none⟩, by simp [SDMGetSmfSelectData, herr, hlen], fun _ => ⟨rfl, ?_⟩,
          fun hh => absurd rfl hh⟩
        have hent : GoMap.entries (client.GetSmfSelectData ue.NudmSDMUri ue.Supi
            ue.PlmnId).data.SubscribedSnssaiInfos = [] := by
          cases hm : (client.GetSmfSelectData ue.NudmSDMUri ue.Supi
              ue.PlmnId).data.SubscribedSnssaiInfos with
          | none => rfl
          | some es => simpa [GoMap.len, GoMap.entries, hm] using hlen
        simp [hent]
      · cases hres : lowerKeys toLower (GoMap.entries (client.GetSmfSelectData ue.NudmSDMUri
            ue.Supi ue.PlmnId).data.SubscribedSnssaiInfos) [] with
        | error newKey =>
          refine ⟨⟨none, some (.errorf ("duplicate key " ++ newKey))⟩,
            by simp [SDMGetSmfSelectData, herr, hlen, hres], fun _ => ⟨rfl, ?_⟩,
            fun hh => absurd rfl hh⟩
          constructor
          · intro hh
            cases hh
          · intro hpw
            have hok := (lowerKeys_ok_iff toLower _ [] _).mpr
              ⟨rfl, fun _ _ => by simp, hpw⟩
            rw [hres] at hok
            cases hok
        | ok new =>
          refine ⟨⟨none, none⟩, by simp [SDMGetSmfSelectData, herr, hlen, hres],
            fun _ => ⟨rfl, ?_⟩, fun hh => absurd rfl hh⟩
          exact ⟨fun _ => ((lowerKeys_ok_iff toLower _ [] new).mp hres).2.2, fun _ => rfl⟩
    | some localErr =>
      rw [herr] at ha
      obtain ⟨r, hr, hone⟩ := exactlyOneOutcome_of_failure
        (SDMGetSmfSelectData toLower client ue) _ localErr
        (by rw [SDMGetSmfSelectData_failure toLower client ue localErr herr]) ha
      exact ⟨r, hr, fun hh => Option.noConfusion hh, hone.2⟩
  · intro ha
    cases herr : (client.GetUeContextInSmfData ue.NudmSDMUri ue.Supi).localErr with
    | none =>
      exact ⟨⟨none, none⟩, by simp [SDMGetUeContextInSmfData, herr], fun _ => ⟨rfl, rfl⟩,
        fun hh => absurd rfl hh⟩
    | some localErr =>
      rw [herr] at ha
      exact exactlyOneOutcome_of_failure _ _ localErr
        (by rw [SDMGetUeContextInSmfData_failure client ue localErr herr]) ha
  · intro ha
    cases herr : (client.Subscribe ue.NudmSDMUri ue.Supi
        { NfInstanceId := nfId, SubscriptionId := "", PlmnId := some ue.PlmnId }).localErr with
    | none =>
      exact ⟨⟨none, none⟩, by simp [SDMSubscribe, herr], fun _ => ⟨rfl, rfl⟩,
        fun hh => absurd rfl hh⟩
    | some localErr =>
      rw [herr] at ha
      exact exactlyOneOutcome_of_failure _ _ localErr
        (by rw [SDMSubscribe_failure nfId client ue localErr herr]) ha
  · intro ha
    cases herr : (client.GetNssai ue.NudmSDMUri ue.Supi ue.PlmnId).localErr with
    | none =>
      exact ⟨⟨none, none⟩, by simp [SDMGetSliceSelectionSubscriptionData, herr],
        fun _ => ⟨rfl, rfl⟩, fun hh => absurd rfl hh⟩
    | some localErr =>
      rw [herr] at ha
      exact exactlyOneOutcome_of_failure _ _ localErr
        (by rw [SDMGetSliceSelectionSubscriptionData_failure client ue localErr herr]) ha
  · intro ha
    cases herr : (client.Unsubscribe ue.NudmSDMUri ue.Supi ue.SdmSubscriptionId).localErr with
    | none =>
      exact ⟨⟨none, none⟩, by simp [SDMUnsubscribe, herr], fun _ => ⟨rfl, rfl⟩,
        fun hh => absurd rfl hh⟩
    | some localErr =>
      rw [herr] at ha
      exact exactlyOneOutcome_of_failure _ _ localErr
        (by rw [SDMUnsubscribe_failure client ue localErr herr]) ha

/-- Witness of C9 (amended): a successful access-and-mobility call with two public
identities, and calls answered `404 Not Found` with a decoded problem-detail body. -/
theorem exactlyOneOutcome_of_no_fault_witness :
    exactlyOneOutcome none (SDMGetAmData amClient ue0) ∧
    (∃ r, (SDMGetSmfSelectData asciiToLower notFoundClient ue0).ret = .returned r ∧
      ((r.problemDetails ≠ none ∧ r.err = none) ∨ (r.problemDetails = none ∧ r.err ≠ none))) ∧
    exactlyOneOutcome (some (.generic errNotFound)) (SDMGetUeContextInSmfData notFoundClient ue0) ∧
    exactlyOneOutcome (some (.generic errNotFound)) (SDMSubscribe "amf-1" notFoundClient ue0) ∧
    exactlyOneOutcome (some (.generic errNotFound))
      (SDMGetSliceSelectionSubscriptionData notFoundClient ue0) ∧
    exactlyOneOutcome (some (.generic errNotFound)) (SDMUnsubscribe notFoundClient ue0) :=
  have hA := exactlyOneOutcome_of_no_fault asciiToLower "amf-1" amClient ue0 "mac"
  have hN := exactlyOneOutcome_of_no_fault asciiToLower "amf-1" notFoundClient ue0 "mac"
  have hh : assertionsHold (some resp404) (some (.generic errNotFound)) :=
    assertionsHold_problem _ _ problemNotFound rfl
  ⟨hA.1 (assertionsHold_none _) (fun _ => by decide),
    (match hN.2.1 hh with
      | ⟨r, hr, _, h2⟩ => ⟨r, hr, h2 (by decide)⟩),
    hN.2.2.1 hh, hN.2.2.2.1 hh, hN.2.2.2.2.1 hh, hN.2.2.2.2.2.1 hh⟩

/-! ## The guard on the status line -/

/-- C10 fails as stated: with the error text equal to the status line `404 Not Found` the
operation returns the problem details, not the raw error; with an error text different from
the status line it returns the raw error. -/
theorem guard_counterexample :
    (GoError.generic errNotFound).Error = resp404.Status ∧
    (SDMGetAmData notFoundClient ue0).ret = .returned ⟨some problemNotFound, none⟩ ∧
    (SDMGetAmData notFoundClient ue0).ret ≠ .returned ⟨none, some (.generic errNotFound)⟩ ∧
    (GoError.generic errUndecoded).Error ≠ resp404.Status ∧
    (SDMGetAmData undecodedClient ue0).ret = .returned ⟨none, some (.generic errUndecoded)⟩ := by
  refine ⟨rfl, by decide, by decide, by decide, by decide⟩

theorem guardOutcome_of_failure (x : Exec Ret) (resp : HttpResponse) (localErr : GoError)
    (hret : x.ret = (handleFailure (some resp) localErr).1) : guardOutcome resp localErr x := by
  constructor
  · intro hne
    rw [hret, handleFailure_differ resp localErr hne]
  · rintro heq e problem rfl hmodel
    rw [hret, handleFailure_problem resp e problem hmodel (by simpa [GoError.Error] using heq.symm)]

/-- C10, amended: for each of the six operations that return problem details, when the
remote call fails with a received response: if the error text differs from the status line
of the response, the operation returns the raw error with nil problem details; if the two
are equal and the error is a `GenericOpenAPIError` whose model is a `ProblemDetails` value,
the operation returns that value with a nil error. -/
theorem guard_on_status_line (toLower : String → String) (nfId : String) (client : Client)
    (ue : AmfUe) (resp : HttpResponse) (localErr : GoError) :
    ((client.GetAmData ue.NudmSDMUri ue.Supi ue.PlmnId).httpResp = some resp →
      (client.GetAmData ue.NudmSDMUri ue.Supi ue.PlmnId).localErr = some localErr →
      guardOutcome resp localErr (SDMGetAmData client ue)) ∧
    ((client.GetSmfSelectData ue.NudmSDMUri ue.Supi ue.PlmnId).httpResp = some resp →
      (client.GetSmfSelectData ue.NudmSDMUri ue.Supi ue.PlmnId).localErr = some localErr →
      guardOutcome resp localErr (SDMGetSmfSelectData toLower client ue)) ∧
    ((client.GetUeContextInSmfData ue.NudmSDMUri ue.Supi).httpResp = some resp →
      (client.GetUeContextInSmfData ue.NudmSDMUri ue.Supi).localErr = some localErr →
      guardOutcome resp localErr (SDMGetUeContextInSmfData client ue)) ∧
    ((client.Subscribe ue.NudmSDMUri ue.Supi
        { NfInstanceId := nfId, SubscriptionId := "", PlmnId := some ue.PlmnId }).httpResp =
          some resp →
      (client.Subscribe ue.NudmSDMUri ue.Supi
        { NfInstanceId := nfId, SubscriptionId := "", PlmnId := some ue.PlmnId }).localErr =
          some localErr →
      guardOutcome resp localErr (SDMSubscribe nfId client ue)) ∧
    ((client.GetNssai ue.NudmSDMUri ue.Supi ue.PlmnId).httpResp = some resp →
      (client.GetNssai ue.NudmSDMUri ue.Supi ue.PlmnId).localErr = some localErr →
      guardOutcome resp localErr (SDMGetSliceSelectionSubscriptionData client ue)) ∧
    ((client.Unsubscribe ue.NudmSDMUri ue.Supi ue.SdmSubscriptionId).httpResp = some resp →
      (client.Unsubscribe ue.NudmSDMUri ue.Supi ue.SdmSubscriptionId).localErr =
        some localErr →
      guardOutcome resp localErr (SDMUnsubscribe client ue)) := by
  refine ⟨?_, ?_, ?_, ?_, ?_, ?_⟩ <;> intro hresp herr <;>
    apply guardOutcome_of_failure
  · rw [SDMGetAmData_failure client ue localErr herr, hresp]
  · rw [SDMGetSmfSelectData_failure toLower client ue localErr herr, hresp]
  · rw [SDMGetUeContextInSmfData_failure client ue localErr herr, hresp]
  · rw [SDMSubscribe_failure nfId client ue localErr herr, hresp]
  · rw [SDMGetSliceSelectionSubscriptionData_failure client ue localErr herr, hresp]
  · rw [SDMUnsubscribe_failure client ue localErr herr, hresp]

/-- Witness of C10 (amended): calls answered `404 Not Found` with a decoded body (texts
equal) return the problem details; calls answered `404 Not Found` with an undecodable body
(texts differ) return the raw error. -/
theorem guard_on_status_line_witness :
    ((SDMGetAmData notFoundClient ue0).ret = .returned ⟨some problemNotFound, none⟩ ∧
      (SDMGetAmData undecodedClient ue0).ret =
        .returned ⟨none, some (.generic errUndecoded)⟩) ∧
    ((SDMGetSmfSelectData asciiToLower notFoundClient ue0).ret =
        .returned ⟨some problemNotFound, none⟩ ∧
      (SDMGetSmfSelectData asciiToLower undecodedClient ue0).ret =
        .returned ⟨none, some (.generic errUndecoded)⟩) ∧
    ((SDMGetUeContextInSmfData notFoundClient ue0).ret =
        .returned ⟨some problemNotFound, none⟩ ∧
      (SDMGetUeContextInSmfData undecodedClient ue0).ret =
        .returned ⟨none, some (.generic errUndecoded)⟩) ∧
    ((SDMSubscribe "amf-1" notFoundClient ue0).ret = .returned ⟨some problemNotFound, none⟩ ∧
      (SDMSubscribe "amf-1" undecodedClient ue0).ret =
        .returned ⟨none, some (.generic errUndecoded)⟩) ∧
    ((SDMGetSliceSelectionSubscriptionData notFoundClient ue0).ret =
        .returned ⟨some problemNotFound, none⟩ ∧
      (SDMGetSliceSelectionSubscriptionData undecodedClient ue0).ret =
        .returned ⟨none, some (.generic errUndecoded)⟩) ∧
    ((SDMUnsubscribe notFoundClient ue0).ret = .returned ⟨some problemNotFound, none⟩ ∧
      (SDMUnsubscribe undecodedClient ue0).ret =
        .returned ⟨none, some (.generic errUndecoded)⟩) :=
  have hN := guard_on_status_line asciiToLower "amf-1" notFoundClient ue0 resp404
    (.generic errNotFound)
  have hU := guard_on_status_line asciiToLower "amf-1" undecodedClient ue0 resp404
    (.generic errUndecoded)
  ⟨⟨(hN.1 rfl rfl).2 rfl _ _ rfl rfl, (hU.1 rfl rfl).1 (by decide)⟩,
    ⟨(hN.2.1 rfl rfl).2 rfl _ _ rfl rfl, (hU.2.1 rfl rfl).1 (by decide)⟩,
    ⟨(hN.2.2.1 rfl rfl).2 rfl _ _ rfl rfl, (hU.2.2.1 rfl rfl).1 (by decide)⟩,
    ⟨(hN.2.2.2.1 rfl rfl).2 rfl _ _ rfl rfl, (hU.2.2.2.1 rfl rfl).1 (by decide)⟩,
    ⟨(hN.2.2.2.2.1 rfl rfl).2 rfl _ _ rfl rfl, (hU.2.2.2.2.1 rfl rfl).1 (by decide)⟩,
    ⟨(hN.2.2.2.2.2 rfl rfl).2 rfl _ _ rfl rfl, (hU.2.2.2.2.2 rfl rfl).1 (by decide)⟩⟩

/-! ## Release of the response body -/

theorem handleFailure_closes (httpResp : Option HttpResponse) (localErr : GoError) :
    (handleFailure httpResp localErr).2 = if httpResp.isSome then 1 else 0 := by
  cases httpResp with
  | none => rfl
  | some resp =>
    by_cases hs : resp.Status = localErr.Error
    · cases localErr with
      | generic e =>
        cases hm : e.Model <;> simp [handleFailure, hs, hm]
      | errorf msg => simp [handleFailure, hs]
      | other dynType msg => simp [handleFailure, hs]
    · simp [handleFailure, hs]

/-- C11 fails as stated: with a generated client that has closed the body once when it hands
back a response, a call answered `404 Not Found` ends with two closes in each of the six
operations that return problem details, and `PutUpuAck` ends with two closes on a successful
call with a response, while a successful `SDMGetAmData` ends with one; and whatever number of
closes the client makes, the successful and the failed run of `SDMGetAmData` do not both end
with exactly one close. -/
theorem bodyCloses_counterexample :
    bodyCloses 1 (notFoundClient.GetAmData ue0.NudmSDMUri ue0.Supi ue0.PlmnId).httpResp
      (SDMGetAmData notFoundClient ue0) = 2 ∧
    bodyCloses 1 (notFoundClient.GetSmfSelectData ue0.NudmSDMUri ue0.Supi ue0.PlmnId).httpResp
      (SDMGetSmfSelectData asciiToLower notFoundClient ue0) = 2 ∧
    bodyCloses 1 (notFoundClient.GetUeContextInSmfData ue0.NudmSDMUri ue0.Supi).httpResp
      (SDMGetUeContextInSmfData notFoundClient ue0) = 2 ∧
    bodyCloses 1 (notFoundClient.Subscribe ue0.NudmSDMUri ue0.Supi
        { NfInstanceId := "amf-1", SubscriptionId := "", PlmnId := some ue0.PlmnId }).httpResp
      (SDMSubscribe "amf-1" notFoundClient ue0) = 2 ∧
    bodyCloses 1 (notFoundClient.GetNssai ue0.NudmSDMUri ue0.Supi ue0.PlmnId).httpResp
      (SDMGetSliceSelectionSubscriptionData notFoundClient ue0) = 2 ∧
    bodyCloses 1
      (notFoundClient.Unsubscribe ue0.NudmSDMUri ue0.Supi ue0.SdmSubscriptionId).httpResp
      (SDMUnsubscribe notFoundClient ue0) = 2 ∧
    bodyCloses 1 (noContentClient.PutUpuAck ue0.NudmSDMUri ue0.Supi
        { UpuMacIue := "mac" }).httpResp
      (PutUpuAck noContentClient ue0 "mac") = 2 ∧
    bodyCloses 1 (amClient.GetAmData ue0.NudmSDMUri ue0.Supi ue0.PlmnId).httpResp
      (SDMGetAmData amClient ue0) = 1 ∧
    (∀ clientCloses : Nat,
      ¬ (bodyCloses clientCloses
            (amClient.GetAmData ue0.NudmSDMUri ue0.Supi ue0.PlmnId).httpResp
            (SDMGetAmData amClient ue0) = 1 ∧
          bodyCloses clientCloses
            (notFoundClient.GetAmData ue0.NudmSDMUri ue0.Supi ue0.PlmnId).httpResp
            (SDMGetAmData notFoundClient ue0) = 1)) := by
  refine ⟨by decide, by decide, by decide, by decide, by decide, by decide, by decide,
    by decide, ?_⟩
  intro clientCloses
  have h1 : bodyCloses clientCloses
      (amClient.GetAmData ue0.NudmSDMUri ue0.Supi ue0.PlmnId).httpResp
      (SDMGetAmData amClient ue0) = clientCloses + 0 := rfl
  have h2 : bodyCloses clientCloses
      (notFoundClient.GetAmData ue0.NudmSDMUri ue0.Supi ue0.PlmnId).httpResp
      (SDMGetAmData notFoundClient ue0) = clientCloses + 1 := by
    have hc : (SDMGetAmData notFoundClient ue0).closes = 1 := by decide
    rw [bodyCloses, hc]
    rfl
  rw [h1, h2]
  omega

/-- C11, amended: with `clientCloses` the number of closes the generated client has made when
it hands back a response, the close count of the response body at the end of a run is:
for `PutUpuAck`, `clientCloses + 1` whenever a response was received; for each of the six
operations that return problem details, `clientCloses + 1` on every failure path with a
response (structured error, raw error, faulting type assertion) and `clientCloses` on a
success path; and zero for all seven when no response was received. So each operation itself
releases the body exactly once on those paths, not at all on the success paths of the six
operations, and never without a response. -/
theorem bodyCloses_by_path (toLower : String → String) (nfId : String) (client : Client)
    (ue : AmfUe) (upuMacIue : String) (clientCloses : Nat) :
    bodyCloses clientCloses
        (client.PutUpuAck ue.NudmSDMUri ue.Supi { UpuMacIue := upuMacIue }).httpResp
        (PutUpuAck client ue upuMacIue) =
      (if (client.PutUpuAck ue.NudmSDMUri ue.Supi { UpuMacIue := upuMacIue }).httpResp.isSome
        then clientCloses + 1 else 0) ∧
    bodyCloses clientCloses (client.GetAmData ue.NudmSDMUri ue.Supi ue.PlmnId).httpResp
        (SDMGetAmData client ue) =
      (if (client.GetAmData ue.NudmSDMUri ue.Supi ue.PlmnId).httpResp.isSome then
        (if (client.GetAmData ue.NudmSDMUri ue.Supi ue.PlmnId).localErr.isSome
          then clientCloses + 1 else clientCloses)
      else 0) ∧
    bodyCloses clientCloses (client.GetSmfSelectData ue.NudmSDMUri ue.Supi ue.PlmnId).httpResp
        (SDMGetSmfSelectData toLower client ue) =
      (if (client.GetSmfSelectData ue.NudmSDMUri ue.Supi ue.PlmnId).httpResp.isSome then
        (if (client.GetSmfSelectData ue.NudmSDMUri ue.Supi ue.PlmnId).localErr.isSome
          then clientCloses + 1 else clientCloses)
      else 0) ∧
    bodyCloses clientCloses (client.GetUeContextInSmfData ue.NudmSDMUri ue.Supi).httpResp
        (SDMGetUeContextInSmfData client ue) =
      (if (client.GetUeContextInSmfData ue.NudmSDMUri ue.Supi).httpResp.isSome then
        (if (client.GetUeContextInSmfData ue.NudmSDMUri ue.Supi).localErr.isSome
          then clientCloses + 1 else clientCloses)
      else 0) ∧
    bodyCloses clientCloses (client.Subscribe ue.NudmSDMUri ue.Supi
          { NfInstanceId := nfId, SubscriptionId := "", PlmnId := some ue.PlmnId }).httpResp
        (SDMSubscribe nfId client ue) =
      (if (client.Subscribe ue.NudmSDMUri ue.Supi
          { NfInstanceId := nfId, SubscriptionId := "",
            PlmnId := some ue.PlmnId }).httpResp.isSome then
        (if (client.Subscribe ue.NudmSDMUri ue.Supi
            { NfInstanceId := nfId, SubscriptionId := "",
              PlmnId := some ue.PlmnId }).localErr.isSome
          then clientCloses + 1 else clientCloses)
      else 0) ∧
    bodyCloses clientCloses (client.GetNssai ue.NudmSDMUri ue.Supi ue.PlmnId).httpResp
        (SDMGetSliceSelectionSubscriptionData client ue) =
      (if (client.GetNssai ue.NudmSDMUri ue.Supi ue.PlmnId).httpResp.isSome then
        (if (client.GetNssai ue.NudmSDMUri ue.Supi ue.PlmnId).localErr.isSome
          then clientCloses + 1 else clientCloses)
      else 0) ∧
    bodyCloses clientCloses
        (client.Unsubscribe ue.NudmSDMUri ue.Supi ue.SdmSubscriptionId).httpResp
        (SDMUnsubscribe client ue) =
      (if (client.Unsubscribe ue.NudmSDMUri ue.Supi ue.SdmSubscriptionId).httpResp.isSome then
        (if (client.Unsubscribe ue.NudmSDMUri ue.Supi ue.SdmSubscriptionId).localErr.isSome
          then clientCloses + 1 else clientCloses)
      else 0) := by
  refine ⟨?_, ?_, ?_, ?_, ?_, ?_, ?_⟩
  · cases hresp : (client.PutUpuAck ue.NudmSDMUri ue.Supi
        { UpuMacIue := upuMacIue }).httpResp <;> simp [bodyCloses, PutUpuAck, hresp]
  · cases herr : (client.GetAmData ue.NudmSDMUri ue.Supi ue.PlmnId).localErr with
    | none =>
      have hc : (SDMGetAmData client ue).closes = 0 := by
        cases hg : (client.GetAmData ue.NudmSDMUri ue.Supi ue.PlmnId).data.Gpsis <;>
          simp [SDMGetAmData, herr, hg]
      cases hresp : (client.GetAmData ue.NudmSDMUri ue.Supi ue.PlmnId).httpResp <;>
        simp [bodyCloses, hc]
    | some localErr =>
      rw [SDMGetAmData_failure client ue localErr herr]
      cases hresp : (client.GetAmData ue.NudmSDMUri ue.Supi ue.PlmnId).httpResp <;>
        simp [bodyCloses, handleFailure_closes]
  · cases herr : (client.GetSmfSelectData ue.NudmSDMUri ue.Supi ue.PlmnId).localErr with
    | none =>
      have hc : (SDMGetSmfSelectData toLower client ue).closes = 0 := by
        by_cases hlen : GoMap.len (client.GetSmfSelectData ue.NudmSDMUri ue.Supi
            ue.PlmnId).data.SubscribedSnssaiInfos = 0
        · simp [SDMGetSmfSelectData, herr, hlen]
        · cases hres : lowerKeys toLower (GoMap.entries (client.GetSmfSelectData
              ue.NudmSDMUri ue.Supi ue.PlmnId).data.SubscribedSnssaiInfos) [] <;>
            simp [SDMGetSmfSelectData, herr, hlen, hres]
      cases hresp : (client.GetSmfSelectData ue.NudmSDMUri ue.Supi ue.PlmnId).httpResp <;>
        simp [bodyCloses, hc]
    | some localErr =>
      rw [SDMGetSmfSelectData_failure toLower client ue localErr herr]
      cases hresp : (client.GetSmfSelectData ue.NudmSDMUri ue.Supi ue.PlmnId).httpResp <;>
        simp [bodyCloses, handleFailure_closes]
  · cases herr : (client.GetUeContextInSmfData ue.NudmSDMUri ue.Supi).localErr with
    | none =>
      have hc : (SDMGetUeContextInSmfData client ue).closes = 0 := by
        simp [SDMGetUeContextInSmfData, herr]
      cases hresp : (client.GetUeContextInSmfData ue.NudmSDMUri ue.Supi).httpResp <;>
        simp [bodyCloses, hc]
    | some localErr =>
      rw [SDMGetUeContextInSmfData_failure client ue localErr herr]
      cases hresp : (client.GetUeContextInSmfData ue.NudmSDMUri ue.Supi).httpResp <;>
        simp [bodyCloses, handleFailure_closes]
  · cases herr : (client.Subscribe ue.NudmSDMUri ue.Supi
        { NfInstanceId := nfId, SubscriptionId := "", PlmnId := some ue.PlmnId }).localErr with
    | none =>
      have hc : (SDMSubscribe nfId client ue).closes = 0 := by
        simp [SDMSubscribe, herr]
      cases hresp : (client.Subscribe ue.NudmSDMUri ue.Supi
          { NfInstanceId := nfId, SubscriptionId := "",
            PlmnId := some ue.PlmnId }).httpResp <;>
        simp [bodyCloses, hc]
    | some localErr =>
      rw [SDMSubscribe_failure nfId client ue localErr herr]
      cases hresp : (client.Subscribe ue.NudmSDMUri ue.Supi
          { NfInstanceId := nfId, SubscriptionId := "",
            PlmnId := some ue.PlmnId }).httpResp <;>
        simp [bodyCloses, handleFailure_closes]
  · cases herr : (client.GetNssai ue.NudmSDMUri ue.Supi ue.PlmnId).localErr with
    | none =>
      have hc : (SDMGetSliceSelectionSubscriptionData client ue).closes = 0 := by
        simp [SDMGetSliceSelectionSubscriptionData, herr]
      cases hresp : (client.GetNssai ue.NudmSDMUri ue.Supi ue.PlmnId).httpResp <;>
        simp [bodyCloses, hc]
    | some localErr =>
      rw [SDMGetSliceSelectionSubscriptionData_failure client ue localErr herr]
      cases hresp : (client.GetNssai ue.NudmSDMUri ue.Supi ue.PlmnId).httpResp <;>
        simp [bodyCloses, handleFailure_closes]
  · cases herr : (client.Unsubscribe ue.NudmSDMUri ue.Supi ue.SdmSubscriptionId).localErr with
    | none =>
      have hc : (SDMUnsubscribe client ue).closes = 0 := by
        simp [SDMUnsubscribe, herr]
      cases hresp : (client.Unsubscribe ue.NudmSDMUri ue.Supi
          ue.SdmSubscriptionId).httpResp <;>
        simp [bodyCloses, hc]
    | some localErr =>
      rw [SDMUnsubscribe_failure client ue localErr herr]
      cases hresp : (client.Unsubscribe ue.NudmSDMUri ue.Supi
          ue.SdmSubscriptionId).httpResp <;>
        simp [bodyCloses, handleFailure_closes]

/-! ## Field ownership -/

/-- C12: for every record and every remote result each operation changes at most its own
fields of the record: `SDMGetAmData` only `AccessAndMobilitySubscriptionData` and `Gpsi`,
`SDMGetSmfSelectData` only `SmfSelectionData`, `SDMGetUeContextInSmfData` only
`UeContextInSmfData`, `SDMSubscribe` only `SdmSubscriptionId`,
`SDMGetSliceSelectionSubscriptionData` only `SubscribedNssai`; `PutUpuAck` and
`SDMUnsubscribe` change nothing; so `SdmSubscriptionId` is written by `SDMSubscribe` only. -/
theorem field_ownership (toLower : String → String) (nfId : String) (client : Client)
    (ue : AmfUe) (upuMacIue : String) :
    (∃ data gpsi, (SDMGetAmData client ue).ue =
      { ue with AccessAndMobilitySubscriptionData := data, Gpsi := gpsi }) ∧
    (∃ data, (SDMGetSmfSelectData toLower client ue).ue =
      { ue with SmfSelectionData := data }) ∧
    (∃ data, (SDMGetUeContextInSmfData client ue).ue = { ue with UeContextInSmfData := data }) ∧
    (∃ id, (SDMSubscribe nfId client ue).ue = { ue with SdmSubscriptionId := id }) ∧
    (∃ nssai, (SDMGetSliceSelectionSubscriptionData client ue).ue =
      { ue with SubscribedNssai := nssai }) ∧
    (PutUpuAck client ue upuMacIue).ue = ue ∧
    (SDMUnsubscribe client ue).ue = ue ∧
    ((SDMGetAmData client ue).ue.SdmSubscriptionId = ue.SdmSubscriptionId ∧
      (SDMGetSmfSelectData toLower client ue).ue.SdmSubscriptionId = ue.SdmSubscriptionId ∧
      (SDMGetUeContextInSmfData client ue).ue.SdmSubscriptionId = ue.SdmSubscriptionId ∧
      (SDMGetSliceSelectionSubscriptionData client ue).ue.SdmSubscriptionId =
        ue.SdmSubscriptionId ∧
      (PutUpuAck client ue upuMacIue).ue.SdmSubscriptionId = ue.SdmSubscriptionId ∧
      (SDMUnsubscribe client ue).ue.SdmSubscriptionId = ue.SdmSubscriptionId) := by
  have hAm : ∃ data gpsi, (SDMGetAmData client ue).ue =
      { ue with AccessAndMobilitySubscriptionData := data, Gpsi := gpsi } := by
    cases herr : (client.GetAmData ue.NudmSDMUri ue.Supi ue.PlmnId).localErr with
    | none =>
      cases hg : (client.GetAmData ue.NudmSDMUri ue.Supi ue.PlmnId).data.Gpsis with
      | nil =>
        exact ⟨some (client.GetAmData ue.NudmSDMUri ue.Supi ue.PlmnId).data, ue.Gpsi,
          by simp [SDMGetAmData, herr, hg]⟩
      | cons gpsi rest =>
        exact ⟨some (client.GetAmData ue.NudmSDMUri ue.Supi ue.PlmnId).data, gpsi,
          by simp [SDMGetAmData, herr, hg]⟩
    | some localErr =>
      exact ⟨ue.AccessAndMobilitySubscriptionData, ue.Gpsi,
        by rw [SDMGetAmData_failure client ue localErr herr]⟩
  have hSmf : ∃ data, (SDMGetSmfSelectData toLower client ue).ue =
      { ue with SmfSelectionData := data } := by
    cases herr : (client.GetSmfSelectData ue.NudmSDMUri ue.Supi ue.PlmnId).localErr with
    | none =>
      by_cases hlen : GoMap.len (client.GetSmfSelectData ue.NudmSDMUri ue.Supi
          ue.PlmnId).data.SubscribedSnssaiInfos = 0
      · exact ⟨some (client.GetSmfSelectData ue.NudmSDMUri ue.Supi ue.PlmnId).data,
          by simp [SDMGetSmfSelectData, herr, hlen]⟩
      · cases hres : lowerKeys toLower (GoMap.entries (client.GetSmfSelectData ue.NudmSDMUri
            ue.Supi ue.PlmnId).data.SubscribedSnssaiInfos) [] with
        | error newKey =>
          exact ⟨ue.SmfSelectionData, by simp [SDMGetSmfSelectData, herr, hlen, hres]⟩
        | ok new =>
          exact ⟨some { (client.GetSmfSelectData ue.NudmSDMUri ue.Supi ue.PlmnId).data with
              SubscribedSnssaiInfos := some new },
            by simp [SDMGetSmfSelectData, herr, hlen, hres]⟩
    | some localErr =>
      exact ⟨ue.SmfSelectionData, by rw [SDMGetSmfSelectData_failure toLower client ue localErr herr]⟩
  have hCtx : ∃ data, (SDMGetUeContextInSmfData client ue).ue =
      { ue with UeContextInSmfData := data } := by
    cases herr : (client.GetUeContextInSmfData ue.NudmSDMUri ue.Supi).localErr with
    | none =>
      exact ⟨some (client.GetUeContextInSmfData ue.NudmSDMUri ue.Supi).data,
        by simp [SDMGetUeContextInSmfData, herr]⟩
    | some localErr =>
      exact ⟨ue.UeContextInSmfData,
        by rw [SDMGetUeContextInSmfData_failure client ue localErr herr]⟩
  have hSub : ∃ id, (SDMSubscribe nfId client ue).ue = { ue with SdmSubscriptionId := id } := by
    cases herr : (client.Subscribe ue.NudmSDMUri ue.Supi
        { NfInstanceId := nfId, SubscriptionId := "", PlmnId := some ue.PlmnId }).localErr with
    | none =>
      exact ⟨(client.Subscribe ue.NudmSDMUri ue.Supi
          { NfInstanceId := nfId, SubscriptionId := "", PlmnId := some ue.PlmnId }).data.SubscriptionId,
        by simp [SDMSubscribe, herr]⟩
    | some localErr =>
      exact ⟨ue.SdmSubscriptionId, by rw [SDMSubscribe_failure nfId client ue localErr herr]⟩
  have hNssai : ∃ nssai, (SDMGetSliceSelectionSubscriptionData client ue).ue =
      { ue with SubscribedNssai := nssai } := by
    cases herr : (client.GetNssai ue.NudmSDMUri ue.Supi ue.PlmnId).localErr with
    | none =>
      exact ⟨(client.GetNssai ue.NudmSDMUri ue.Supi ue.PlmnId).data.SingleNssais.foldl appendSingle
          ((client.GetNssai ue.NudmSDMUri ue.Supi ue.PlmnId).data.DefaultSingleNssais.foldl
            appendDefault ue.SubscribedNssai),
        by simp [SDMGetSliceSelectionSubscriptionData, herr]⟩
    | some localErr =>
      exact ⟨ue.SubscribedNssai,
        by rw [SDMGetSliceSelectionSubscriptionData_failure client ue localErr herr]⟩
  have hUn : (SDMUnsubscribe client ue).ue = ue := SDMUnsubscribe_ue client ue
  refine ⟨hAm, hSmf, hCtx, hSub, hNssai, rfl, hUn, ?_, ?_, ?_, ?_, rfl, ?_⟩
  · obtain ⟨data, gpsi, h⟩ := hAm
    rw [h]
  · obtain ⟨data, h⟩ := hSmf
    rw [h]
  · obtain ⟨data, h⟩ := hCtx
    rw [h]
  · obtain ⟨nssai, h⟩ := hNssai
    rw [h]
  · rw [hUn]

/-! ## Acknowledge parameter update without a response -/

/-- C13 fails as stated: with no response and a dial error `PutUpuAck` returns the dial error
itself, which is not the error built by `ReportError("server no response")` that the other
operations return. -/
theorem PutUpuAck_counterexample :
    (noRouteClient.PutUpuAck ue0.NudmSDMUri ue0.Supi { UpuMacIue := "mac" }).httpResp = none ∧
    (PutUpuAck noRouteClient ue0 "mac").ret =
      .returned (some (.other "*url.Error" "dial tcp: connect: connection refused")) ∧
    (PutUpuAck noRouteClient ue0 "mac").ret ≠
      .returned (some (ReportError "server no response")) ∧
    (SDMUnsubscribe noRouteClient ue0).ret =
      .returned ⟨none, some (ReportError "server no response")⟩ := by
  refine ⟨rfl, by decide, by decide, by decide⟩

/-- C13, amended: when the remote call of `PutUpuAck` fails and no response was received,
`PutUpuAck` returns the error of the remote call itself, unchanged, and leaves the record as
it was. -/
theorem PutUpuAck_without_response (client : Client) (ue : AmfUe) (upuMacIue : String)
    (localErr : GoError)
    (hresp : (client.PutUpuAck ue.NudmSDMUri ue.Supi { UpuMacIue := upuMacIue }).httpResp =
      none)
    (herr : (client.PutUpuAck ue.NudmSDMUri ue.Supi { UpuMacIue := upuMacIue }).localErr =
      some localErr) :
    (PutUpuAck client ue upuMacIue).ret = .returned (some localErr) ∧
      (PutUpuAck client ue upuMacIue).ue = ue ∧
      (PutUpuAck client ue upuMacIue).closes = 0 := by
  refine ⟨?_, rfl, ?_⟩
  · simp [PutUpuAck, herr]
  · simp [PutUpuAck, hresp]

/-- Witness of C13 (amended): connection refused, no response object. -/
theorem PutUpuAck_without_response_witness :
    (PutUpuAck noRouteClient ue0 "mac").ret =
        .returned (some (.other "*url.Error" "dial tcp: connect: connection refused")) ∧
      (PutUpuAck noRouteClient ue0 "mac").ue = ue0 ∧
      (PutUpuAck noRouteClient ue0 "mac").closes = 0 :=
  PutUpuAck_without_response noRouteClient ue0 "mac"
    (.other "*url.Error" "dial tcp: connect: connection refused") rfl rfl

/-! ## SMF-selection data without key collisions -/

theorem mapGet_eq_some_iff {V : Type} (m : List (String × V))
    (hnd : (m.map Prod.fst).Nodup) (key : String) (val : V) :
    mapGet m key = some val ↔ (key, val) ∈ m := by
  induction m with
  | nil => simp [mapGet]
  | cons e es ih =>
    obtain ⟨k, v⟩ := e
    simp only [List.map_cons, List.nodup_cons] at hnd
    by_cases hk : k = key
    · subst hk
      simp only [mapGet, if_true, Option.some.injEq, List.mem_cons, Prod.mk.injEq, true_and]
      constructor
      · intro h
        exact Or.inl h.symm
      · rintro (h | h)
        · exact h.symm
        · exact absurd (List.mem_map_of_mem Prod.fst h) hnd.1
    · simp only [mapGet, hk, if_false, List.mem_cons, Prod.mk.injEq]
      rw [ih hnd.2]
      constructor
      · exact Or.inr
      · rintro (⟨h, -⟩ | h)
        · exact absurd h.symm hk
        · exact h

theorem pairwise_lower_of_no_collision (toLower : String → String)
    (l : List (String × SnssaiInfo)) (hnd : (l.map Prod.fst).Nodup)
    (hno : ∀ k1 ∈ l.map Prod.fst, ∀ k2 ∈ l.map Prod.fst, k1 ≠ k2 → toLower k1 ≠ toLower k2) :
    l.Pairwise (fun e1 e2 => toLower e1.1 ≠ toLower e2.1) := by
  have h1 : l.Pairwise (fun a b => a.1 ≠ b.1) := List.pairwise_map.mp hnd
  exact h1.imp_of_mem (fun ha hb hab =>
    hno _ (List.mem_map_of_mem _ ha) _ (List.mem_map_of_mem _ hb) hab)

theorem nodup_keys_lowerEntry (toLower : String → String) (l : List (String × SnssaiInfo))
    (hpw : l.Pairwise (fun e1 e2 => toLower e1.1 ≠ toLower e2.1)) :
    ((l.map (lowerEntry toLower)).map Prod.fst).Nodup := by
  rw [List.map_map]
  exact List.pairwise_map.mpr hpw

/-- The run of `SDMGetSmfSelectData` on a successful response whose entries fold to pairwise
different keys: nil results, and the stored data is the returned data with the entries
folded (the returned data itself when the map is empty or nil). -/
theorem SDMGetSmfSelectData_of_pairwise (toLower : String → String) (client : Client)
    (ue : AmfUe) (data : SmfSelectionSubscriptionData) (httpResp : Option HttpResponse)
    (hcall : client.GetSmfSelectData ue.NudmSDMUri ue.Supi ue.PlmnId = ⟨data, httpResp, none⟩)
    (hpw : (GoMap.entries data.SubscribedSnssaiInfos).Pairwise
      (fun e1 e2 => toLower e1.1 ≠ toLower e2.1)) :
    (SDMGetSmfSelectData toLower client ue).ret = .returned ⟨none, none⟩ ∧
      ∃ stored, (SDMGetSmfSelectData toLower client ue).ue =
          { ue with SmfSelectionData := some stored } ∧
        stored.SupportedFeatures = data.SupportedFeatures ∧
        stored.SharedSnssaiInfosId = data.SharedSnssaiInfosId ∧
        GoMap.entries stored.SubscribedSnssaiInfos =
          (GoMap.entries data.SubscribedSnssaiInfos).map (lowerEntry toLower) := by
  by_cases hlen : GoMap.len data.SubscribedSnssaiInfos = 0
  · have hent : GoMap.entries data.SubscribedSnssaiInfos = [] := by
      cases hm : data.SubscribedSnssaiInfos with
      | none => rfl
      | some es => simpa [GoMap.len, GoMap.entries, hm] using hlen
    refine ⟨by simp [SDMGetSmfSelectData, hcall, hlen], data,
      by simp [SDMGetSmfSelectData, hcall, hlen], rfl, rfl, ?_⟩
    rw [hent]
    rfl
  · have hok : lowerKeys toLower (GoMap.entries data.SubscribedSnssaiInfos) [] =
        .ok ((GoMap.entries data.SubscribedSnssaiInfos).map (lowerEntry toLower)) :=
      (lowerKeys_ok_iff toLower _ [] _).mpr ⟨by simp, fun _ _ => by simp, hpw⟩
    exact ⟨by simp [SDMGetSmfSelectData, hcall, hlen, hok],
      ⟨data.SupportedFeatures,
        some ((GoMap.entries data.SubscribedSnssaiInfos).map (lowerEntry toLower)),
        data.SharedSnssaiInfosId⟩,
      by simp [SDMGetSmfSelectData, hcall, hlen, hok], rfl, rfl, rfl⟩

/-- C14: for a successful SMF-selection response whose map (keys pairwise distinct, as in
every Go map) has no two distinct keys with the same lower-case form, empty and nil map
included, `SDMGetSmfSelectData` returns nil error and stores data whose map has exactly the
entries `ToLower(k) -> v` for the entries `k -> v` of the returned map, as many as before,
each found under its folded key, with the other fields of the returned data unchanged. -/
theorem SDMGetSmfSelectData_folds_keys (toLower : String → String) (client : Client)
    (ue : AmfUe) (data : SmfSelectionSubscriptionData) (httpResp : Option HttpResponse)
    (hcall : client.GetSmfSelectData ue.NudmSDMUri ue.Supi ue.PlmnId = ⟨data, httpResp, none⟩)
    (hnd : (GoMap.keys data.SubscribedSnssaiInfos).Nodup)
    (hno : ∀ k1 ∈ GoMap.keys data.SubscribedSnssaiInfos,
      ∀ k2 ∈ GoMap.keys data.SubscribedSnssaiInfos, k1 ≠ k2 → toLower k1 ≠ toLower k2) :
    (SDMGetSmfSelectData toLower client ue).ret = .returned ⟨none, none⟩ ∧
      ∃ stored, (SDMGetSmfSelectData toLower client ue).ue.SmfSelectionData = some stored ∧
        stored.SupportedFeatures = data.SupportedFeatures ∧
        stored.SharedSnssaiInfosId = data.SharedSnssaiInfosId ∧
        GoMap.entries stored.SubscribedSnssaiInfos =
          (GoMap.entries data.SubscribedSnssaiInfos).map (fun e => (toLower e.1, e.2)) ∧
        GoMap.len stored.SubscribedSnssaiInfos = GoMap.len data.SubscribedSnssaiInfos ∧
        (GoMap.keys stored.SubscribedSnssaiInfos).Nodup ∧
        ∀ k v, (k, v) ∈ GoMap.entries data.SubscribedSnssaiInfos →
          mapGet (GoMap.entries stored.SubscribedSnssaiInfos) (toLower k) = some v := by
  have hpw := pairwise_lower_of_no_collision toLower _ hnd hno
  obtain ⟨hret, stored, hue, hsf, hsh, hent⟩ :=
    SDMGetSmfSelectData_of_pairwise toLower client ue data httpResp hcall hpw
  have hlenEq : ∀ m : GoMap SnssaiInfo, GoMap.len m = (GoMap.entries m).length := by
    intro m
    cases m <;> rfl
  have hkeys : (GoMap.keys stored.SubscribedSnssaiInfos).Nodup := by
    unfold GoMap.keys
    rw [hent]
    exact nodup_keys_lowerEntry toLower _ hpw
  refine ⟨hret, stored, by rw [hue], hsf, hsh, hent, ?_, hkeys, ?_⟩
  · rw [hlenEq, hlenEq, hent, List.length_map]
  · intro k v hkv
    rw [mapGet_eq_some_iff _ hkeys, hent]
    exact List.mem_map_of_mem (lowerEntry toLower) hkv

/-- Witness of C14: the keys `01ABCDEF` and `02` do not collide. -/
theorem SDMGetSmfSelectData_folds_keys_witness :
    (SDMGetSmfSelectData asciiToLower upperClient ue0).ret = .returned ⟨none, none⟩ ∧
      (SDMGetSmfSelectData asciiToLower upperClient ue0).ue.SmfSelectionData =
        some { smfDataUpper with
          SubscribedSnssaiInfos := some [("01abcdef", info0), ("02", info0)] } :=
  have h := SDMGetSmfSelectData_folds_keys asciiToLower upperClient ue0 smfDataUpper
    (some resp200) rfl (by decide) (by decide)
  ⟨h.1, by decide⟩

/-! ## Failure with a response whose status line differs from the error text -/

/-- C15: for each of the six operations that return problem details, when the remote call
fails with a received response whose status line differs from the error text, the operation
returns nil problem details and exactly the original error value, and leaves the subscriber
record unchanged. -/
theorem failure_status_differs (toLower : String → String) (nfId : String) (client : Client)
    (ue : AmfUe) (resp : HttpResponse) (localErr : GoError)
    (hne : resp.Status ≠ localErr.Error) :
    ((client.GetAmData ue.NudmSDMUri ue.Supi ue.PlmnId).httpResp = some resp →
      (client.GetAmData ue.NudmSDMUri ue.Supi ue.PlmnId).localErr = some localErr →
      (SDMGetAmData client ue).returnedUnchanged ue ⟨none, some localErr⟩) ∧
    ((client.GetSmfSelectData ue.NudmSDMUri ue.Supi ue.PlmnId).httpResp = some resp →
      (client.GetSmfSelectData ue.NudmSDMUri ue.Supi ue.PlmnId).localErr = some localErr →
      (SDMGetSmfSelectData toLower client ue).returnedUnchanged ue ⟨none, some localErr⟩) ∧
    ((client.GetUeContextInSmfData ue.NudmSDMUri ue.Supi).httpResp = some resp →
      (client.GetUeContextInSmfData ue.NudmSDMUri ue.Supi).localErr = some localErr →
      (SDMGetUeContextInSmfData client ue).returnedUnchanged ue ⟨none, some localErr⟩) ∧
    ((client.Subscribe ue.NudmSDMUri ue.Supi
        { NfInstanceId := nfId, SubscriptionId := "", PlmnId := some ue.PlmnId }).httpResp =
          some resp →
      (client.Subscribe ue.NudmSDMUri ue.Supi
        { NfInstanceId := nfId, SubscriptionId := "", PlmnId := some ue.PlmnId }).localErr =
          some localErr →
      (SDMSubscribe nfId client ue).returnedUnchanged ue ⟨none, some localErr⟩) ∧
    ((client.GetNssai ue.NudmSDMUri ue.Supi ue.PlmnId).httpResp = some resp →
      (client.GetNssai ue.NudmSDMUri ue.Supi ue.PlmnId).localErr = some localErr →
      (SDMGetSliceSelectionSubscriptionData client ue).returnedUnchanged ue
        ⟨none, some localErr⟩) ∧
    ((client.Unsubscribe ue.NudmSDMUri ue.Supi ue.SdmSubscriptionId).httpResp = some resp →
      (client.Unsubscribe ue.NudmSDMUri ue.Supi ue.SdmSubscriptionId).localErr =
        some localErr →
      (SDMUnsubscribe client ue).returnedUnchanged ue ⟨none, some localErr⟩) := by
  have hf := handleFailure_differ resp localErr hne
  refine ⟨?_, ?_, ?_, ?_, ?_, ?_⟩ <;> intro hresp herr
  · simp [Exec.returnedUnchanged, SDMGetAmData_failure client ue _ herr, hresp, hf]
  · simp [Exec.returnedUnchanged, SDMGetSmfSelectData_failure toLower client ue _ herr, hresp, hf]
  · simp [Exec.returnedUnchanged, SDMGetUeContextInSmfData_failure client ue _ herr, hresp, hf]
  · simp [Exec.returnedUnchanged, SDMSubscribe_failure nfId client ue _ herr, hresp, hf]
  · simp [Exec.returnedUnchanged, SDMGetSliceSelectionSubscriptionData_failure client ue _ herr,
      hresp, hf]
  · simp [Exec.returnedUnchanged, SDMUnsubscribe_failure client ue _ herr, hresp, hf]

/-- Witness of C15: every call answered `404 Not Found` with an error whose text is
`unexpected end of JSON input`. -/
theorem failure_status_differs_witness :
    (SDMGetAmData undecodedClient ue0).returnedUnchanged ue0
      ⟨none, some (.generic errUndecoded)⟩ ∧
    (SDMGetSmfSelectData asciiToLower undecodedClient ue0).returnedUnchanged ue0
      ⟨none, some (.generic errUndecoded)⟩ ∧
    (SDMGetUeContextInSmfData undecodedClient ue0).returnedUnchanged ue0
      ⟨none, some (.generic errUndecoded)⟩ ∧
    (SDMSubscribe "amf-1" undecodedClient ue0).returnedUnchanged ue0
      ⟨none, some (.generic errUndecoded)⟩ ∧
    (SDMGetSliceSelectionSubscriptionData undecodedClient ue0).returnedUnchanged ue0
      ⟨none, some (.generic errUndecoded)⟩ ∧
    (SDMUnsubscribe undecodedClient ue0).returnedUnchanged ue0
      ⟨none, some (.generic errUndecoded)⟩ :=
  have h := failure_status_differs asciiToLower "amf-1" undecodedClient ue0 resp404
    (.generic errUndecoded) (by decide)
  ⟨h.1 rfl rfl, h.2.1 rfl rfl, h.2.2.1 rfl rfl, h.2.2.2.1 rfl rfl, h.2.2.2.2.1 rfl rfl,
    h.2.2.2.2.2 rfl rfl⟩

/-! ## Access-and-mobility data without a public identity -/

/-- C16: on a successful access-and-mobility response, when the `Gpsis` list is empty
`SDMGetAmData` returns no outcome: it ends in the index-out-of-range panic of `Gpsis[0]`,
after `AccessAndMobilitySubscriptionData` has been replaced by the returned data and nothing
else changed; and `SDMGetAmData` returns exactly when the list is non-empty. -/
theorem SDMGetAmData_empty_gpsis (client : Client) (ue : AmfUe)
    (data : AccessAndMobilitySubscriptionData) (httpResp : Option HttpResponse)
    (hcall : client.GetAmData ue.NudmSDMUri ue.Supi ue.PlmnId = ⟨data, httpResp, none⟩) :
    (data.Gpsis = [] →
      (SDMGetAmData client ue).ret = .panicked (.indexOutOfRange 0 0) ∧
      (SDMGetAmData client ue).ue = { ue with AccessAndMobilitySubscriptionData := some data }) ∧
    ((∃ r, (SDMGetAmData client ue).ret = .returned r) ↔ data.Gpsis ≠ []) := by
  cases hg : data.Gpsis with
  | nil =>
    have hret : (SDMGetAmData client ue).ret = .panicked (.indexOutOfRange 0 0) := by
      simp [SDMGetAmData, hcall, hg]
    refine ⟨fun _ => ⟨hret, by simp [SDMGetAmData, hcall, hg]⟩, ?_⟩
    constructor
    · rintro ⟨r, hr⟩
      rw [hret] at hr
      cases hr
    · intro h
      exact absurd rfl h
  | cons gpsi rest =>
    refine ⟨fun h => List.noConfusion h, ?_⟩
    constructor
    · intro _
      simp
    · intro _
      exact ⟨⟨none, none⟩, by simp [SDMGetAmData, hcall, hg]⟩

/-- Witness of C16: a successful response with no public identity. -/
theorem SDMGetAmData_empty_gpsis_witness :
    ((SDMGetAmData noGpsiClient ue0).ret = .panicked (.indexOutOfRange 0 0) ∧
      (SDMGetAmData noGpsiClient ue0).ue =
        { ue0 with AccessAndMobilitySubscriptionData := some amDataNoGpsi }) ∧
    ¬ ∃ r, (SDMGetAmData noGpsiClient ue0).ret = .returned r :=
  have h := SDMGetAmData_empty_gpsis noGpsiClient ue0 amDataNoGpsi (some resp200) rfl
  ⟨h.1 rfl, fun hr => h.2.mp hr rfl⟩

/-! ## Independence of the visiting order -/

theorem mapGet_eq_of_perm {V : Type} (m1 m2 : List (String × V)) (hperm : m1.Perm m2)
    (hnd : (m1.map Prod.fst).Nodup) (key : String) : mapGet m1 key = mapGet m2 key := by
  have hnd2 : (m2.map Prod.fst).Nodup := (hperm.map Prod.fst).nodup_iff.mp hnd
  apply Option.ext
  intro val
  simp only [Option.mem_def]
  rw [mapGet_eq_some_iff m1 hnd, mapGet_eq_some_iff m2 hnd2]
  exact hperm.mem_iff

/-- The run of `SDMGetSmfSelectData` on a successful response in which two visited entries
fold to the same key: the duplicate-key error for some folded key, record unchanged. -/
theorem SDMGetSmfSelectData_of_not_pairwise (toLower : String → String) (client : Client)
    (ue : AmfUe) (data : SmfSelectionSubscriptionData) (httpResp : Option HttpResponse)
    (hcall : client.GetSmfSelectData ue.NudmSDMUri ue.Supi ue.PlmnId = ⟨data, httpResp, none⟩)
    (hpw : ¬ (GoMap.entries data.SubscribedSnssaiInfos).Pairwise
      (fun e1 e2 => toLower e1.1 ≠ toLower e2.1)) :
    ∃ newKey, (SDMGetSmfSelectData toLower client ue).ret =
        .returned ⟨none, some (.errorf ("duplicate key " ++ newKey))⟩ ∧
      (SDMGetSmfSelectData toLower client ue).ue = ue := by
  have hlen : GoMap.len data.SubscribedSnssaiInfos ≠ 0 := by
    intro hlen
    apply hpw
    have hent : GoMap.entries data.SubscribedSnssaiInfos = [] := by
      cases hm : data.SubscribedSnssaiInfos with
      | none => rfl
      | some es => simpa [GoMap.len, GoMap.entries, hm] using hlen
    rw [hent]
    exact List.Pairwise.nil
  cases hres : lowerKeys toLower (GoMap.entries data.SubscribedSnssaiInfos) [] with
  | error newKey => exact ⟨newKey, by simp [SDMGetSmfSelectData, hcall, hlen, hres]⟩
  | ok new => exact absurd ((lowerKeys_ok_iff toLower _ [] new).mp hres).2.2 hpw

/-- C17: the result of `SDMGetSmfSelectData` on a successful response does not depend on the
order in which the entries of the map are visited: for two responses whose entries are the
same up to order, either both runs return the duplicate-key error (for some folded key each)
and leave the record unchanged, or both return nil error and store maps with the same
entries, so that every key has the same value in both. -/
theorem SDMGetSmfSelectData_order_independent (toLower : String → String)
    (client1 client2 : Client) (ue : AmfUe) (data1 data2 : SmfSelectionSubscriptionData)
    (httpResp1 httpResp2 : Option HttpResponse)
    (hcall1 : client1.GetSmfSelectData ue.NudmSDMUri ue.Supi ue.PlmnId =
      ⟨data1, httpResp1, none⟩)
    (hcall2 : client2.GetSmfSelectData ue.NudmSDMUri ue.Supi ue.PlmnId =
      ⟨data2, httpResp2, none⟩)
    (hperm : (GoMap.entries data1.SubscribedSnssaiInfos).Perm
      (GoMap.entries data2.SubscribedSnssaiInfos)) :
    (∃ newKey1 newKey2,
      (SDMGetSmfSelectData toLower client1 ue).ret =
        .returned ⟨none, some (.errorf ("duplicate key " ++ newKey1))⟩ ∧
      (SDMGetSmfSelectData toLower client2 ue).ret =
        .returned ⟨none, some (.errorf ("duplicate key " ++ newKey2))⟩ ∧
      (SDMGetSmfSelectData toLower client1 ue).ue = ue ∧
      (SDMGetSmfSelectData toLower client2 ue).ue = ue) ∨
    ((SDMGetSmfSelectData toLower client1 ue).ret = .returned ⟨none, none⟩ ∧
      (SDMGetSmfSelectData toLower client2 ue).ret = .returned ⟨none, none⟩ ∧
      ∃ stored1 stored2,
        (SDMGetSmfSelectData toLower client1 ue).ue.SmfSelectionData = some stored1 ∧
        (SDMGetSmfSelectData toLower client2 ue).ue.SmfSelectionData = some stored2 ∧
        (GoMap.entries stored1.SubscribedSnssaiInfos).Perm
          (GoMap.entries stored2.SubscribedSnssaiInfos) ∧
        ∀ key, mapGet (GoMap.entries stored1.SubscribedSnssaiInfos) key =
          mapGet (GoMap.entries stored2.SubscribedSnssaiInfos) key) := by
  have hsymm : ∀ {x y : String × SnssaiInfo}, toLower x.1 ≠ toLower y.1 →
      toLower y.1 ≠ toLower x.1 := fun h hh => h hh.symm
  by_cases hpw1 : (GoMap.entries data1.SubscribedSnssaiInfos).Pairwise
      (fun e1 e2 => toLower e1.1 ≠ toLower e2.1)
  · have hpw2 := (hperm.pairwise_iff hsymm).mp hpw1
    obtain ⟨hret1, stored1, hue1, -, -, hent1⟩ :=
      SDMGetSmfSelectData_of_pairwise toLower client1 ue data1 httpResp1 hcall1 hpw1
    obtain ⟨hret2, stored2, hue2, -, -, hent2⟩ :=
      SDMGetSmfSelectData_of_pairwise toLower client2 ue data2 httpResp2 hcall2 hpw2
    have hp : (GoMap.entries stored1.SubscribedSnssaiInfos).Perm
        (GoMap.entries stored2.SubscribedSnssaiInfos) := by
      rw [hent1, hent2]
      exact hperm.map _
    refine Or.inr ⟨hret1, hret2, stored1, stored2, by rw [hue1], by rw [hue2], hp, ?_⟩
    intro key
    apply mapGet_eq_of_perm _ _ hp
    rw [hent1]
    exact nodup_keys_lowerEntry toLower _ hpw1
  · have hpw2 : ¬ (GoMap.entries data2.SubscribedSnssaiInfos).Pairwise
        (fun e1 e2 => toLower e1.1 ≠ toLower e2.1) :=
      fun h => hpw1 ((hperm.pairwise_iff hsymm).mpr h)
    obtain ⟨newKey1, hret1, hue1⟩ :=
      SDMGetSmfSelectData_of_not_pairwise toLower client1 ue data1 httpResp1 hcall1 hpw1
    obtain ⟨newKey2, hret2, hue2⟩ :=
      SDMGetSmfSelectData_of_not_pairwise toLower client2 ue data2 httpResp2 hcall2 hpw2
    exact Or.inl ⟨newKey1, newKey2, hret1, hret2, hue1, hue2⟩

/-- Witness of C17: the entries `01ABCDEF` and `02` visited in either order are accepted and
give stored maps with the same value under every key. -/
theorem SDMGetSmfSelectData_order_independent_witness :
    (SDMGetSmfSelectData asciiToLower upperClient ue0).ret = .returned ⟨none, none⟩ ∧
      (SDMGetSmfSelectData asciiToLower upperSwappedClient ue0).ret = .returned ⟨none, none⟩ ∧
      ∃ stored1 stored2,
        (SDMGetSmfSelectData asciiToLower upperClient ue0).ue.SmfSelectionData =
          some stored1 ∧
        (SDMGetSmfSelectData asciiToLower upperSwappedClient ue0).ue.SmfSelectionData =
          some stored2 ∧
        (GoMap.entries stored1.SubscribedSnssaiInfos).Perm
          (GoMap.entries stored2.SubscribedSnssaiInfos) ∧
        ∀ key, mapGet (GoMap.entries stored1.SubscribedSnssaiInfos) key =
          mapGet (GoMap.entries stored2.SubscribedSnssaiInfos) key :=
  (SDMGetSmfSelectData_order_independent asciiToLower upperClient upperSwappedClient ue0
    smfDataUpper smfDataUpperSwapped (some resp200) (some resp200) rfl rfl
    (List.Perm.swap _ _ _)).resolve_left (by
      rintro ⟨newKey1, -, h, -⟩
      have h0 : (SDMGetSmfSelectData asciiToLower upperClient ue0).ret =
          .returned ⟨none, none⟩ := by decide
      rw [h0] at h
      cases h)

end Consumer
